import Mathlib

/-!
Verification development for the LS-8 v2.0 CPU emulator (`src/ls8/cpu.js`).

The emulator is shallowly embedded: the CPU state (8-slot register array plus
the PC/IR/FL properties, the `interruptsEnabled` flag, and the attached RAM)
becomes a Lean structure, and each JavaScript method (`alu`, `tick`, the
instruction handlers, `_push`/`_pop`, `setFlag`/`getFlag`) becomes a Lean
function on that structure.

JavaScript numbers are modelled by `JSNum`.  Integral values are carried as
`ℤ` (every integer arising in the emulator is far below 2^53, where IEEE
doubles are exact).  Non-integral finite values — which in this program arise
only from the unguarded float division in the `DIV` ALU case — are carried as
exact rationals (`nonint`); this idealises IEEE rounding, and is exact for
every value actually evaluated in this development (such as 5/2).  The
special values `Infinity`, `-Infinity`, `NaN` and `undefined` are separate
constructors.  Bitwise operators follow the ECMAScript `ToInt32`/`ToUint32`
semantics: operands are truncated, wrapped into 32 bits, and the operation is
performed on the two's-complement representative.
-/

/-- Model of a JavaScript number (plus `undefined`) as used by the emulator.
`int n` is an integral value, `nonint q` a finite non-integral value
(exact-rational idealisation of the IEEE double). -/
inductive JSNum where
  | int : ℤ → JSNum
  | nonint : ℚ → JSNum
  | posInf : JSNum
  | negInf : JSNum
  | nan : JSNum
  | undefined : JSNum
deriving DecidableEq, Repr

/-- Truncate a rational toward zero (the `ToIntegerOrInfinity` step of
ECMAScript conversions). -/
def ratTrunc (q : ℚ) : ℤ := q.num.tdiv q.den

/-- Wrap an integer into the signed 32-bit range, as ECMAScript `ToInt32`
does after truncation. -/
def wrap32 (t : ℤ) : ℤ := (t + 2147483648) % 4294967296 - 2147483648

/-- ECMAScript `ToInt32` on a `JSNum` (`NaN`, `undefined` and infinities map
to 0). -/
def toInt32 : JSNum → ℤ
  | .int n => wrap32 n
  | .nonint q => wrap32 (ratTrunc q)
  | _ => 0

/-- The unsigned 32-bit representative of a value, as a natural number. -/
def u32 (x : JSNum) : ℕ := (toInt32 x % 4294967296).toNat

/-- Reinterpret an unsigned 32-bit natural as a signed 32-bit integer. -/
def ofU32 (n : ℕ) : ℤ := if n < 2147483648 then (n : ℤ) else (n : ℤ) - 4294967296

/-- The rational value of a finite `JSNum` (0 on the non-finite values; only
applied to finite ones). -/
def toQ : JSNum → ℚ
  | .int n => (n : ℚ)
  | .nonint q => q
  | _ => 0

/-- Repackage an exact rational as a `JSNum`, keeping integral values in the
`int` constructor. -/
def ofQ (q : ℚ) : JSNum := if q.den = 1 then .int q.num else .nonint q

/-- Is the value finite (a real number, not `NaN`/`undefined`/infinite)? -/
def isFin : JSNum → Bool
  | .int _ => true
  | .nonint _ => true
  | _ => false

/-- JavaScript `+` on numbers (`undefined` behaves as `NaN`). -/
def jsAdd : JSNum → JSNum → JSNum
  | .int a, .int b => .int (a + b)
  | .nan, _ => .nan
  | _, .nan => .nan
  | .undefined, _ => .nan
  | _, .undefined => .nan
  | .posInf, .negInf => .nan
  | .negInf, .posInf => .nan
  | .posInf, _ => .posInf
  | _, .posInf => .posInf
  | .negInf, _ => .negInf
  | _, .negInf => .negInf
  | a, b => ofQ (toQ a + toQ b)

/-- JavaScript `-` on numbers. -/
def jsSub : JSNum → JSNum → JSNum
  | .int a, .int b => .int (a - b)
  | .nan, _ => .nan
  | _, .nan => .nan
  | .undefined, _ => .nan
  | _, .undefined => .nan
  | .posInf, .posInf => .nan
  | .negInf, .negInf => .nan
  | .posInf, _ => .posInf
  | .negInf, _ => .negInf
  | _, .posInf => .negInf
  | _, .negInf => .posInf
  | a, b => ofQ (toQ a - toQ b)

/-- JavaScript `*` on numbers (only the cases reachable in this program are
semantically relevant; both operands finite, or involving specials). -/
def jsMul : JSNum → JSNum → JSNum
  | .int a, .int b => .int (a * b)
  | .nan, _ => .nan
  | _, .nan => .nan
  | .undefined, _ => .nan
  | _, .undefined => .nan
  | .posInf, _ => .nan
  | .negInf, _ => .nan
  | _, .posInf => .nan
  | _, .negInf => .nan
  | a, b => ofQ (toQ a * toQ b)

/-- JavaScript `/` on numbers.  Division of a nonzero finite value by zero
yields a signed infinity, `0/0` yields `NaN`; a finite quotient is the exact
rational (idealising IEEE rounding — exact for every quotient evaluated in
this development). -/
def jsDiv : JSNum → JSNum → JSNum
  | .int a, .int b =>
    if b = 0 then (if a = 0 then .nan else if 0 < a then .posInf else .negInf)
    else if a % b = 0 then .int (a / b) else .nonint ((a : ℚ) / (b : ℚ))
  | .nan, _ => .nan
  | _, .nan => .nan
  | .undefined, _ => .nan
  | _, .undefined => .nan
  | .posInf, .posInf => .nan
  | .posInf, .negInf => .nan
  | .negInf, .posInf => .nan
  | .negInf, .negInf => .nan
  | .posInf, _ => .posInf
  | .negInf, _ => .negInf
  | _, .posInf => .int 0
  | _, .negInf => .int 0
  | a, b =>
    if toQ b = 0 then (if toQ a = 0 then .nan else if 0 < toQ a then .posInf else .negInf)
    else ofQ (toQ a / toQ b)

/-- JavaScript `%` on numbers: the truncated (sign-of-dividend) remainder;
`x % 0` is `NaN`. -/
def jsMod : JSNum → JSNum → JSNum
  | .int a, .int b => if b = 0 then .nan else .int (Int.tmod a b)
  | .nan, _ => .nan
  | _, .nan => .nan
  | .undefined, _ => .nan
  | _, .undefined => .nan
  | .posInf, _ => .nan
  | .negInf, _ => .nan
  | a, .posInf => a
  | a, .negInf => a
  | a, b =>
    if toQ b = 0 then .nan
    else ofQ (toQ a - toQ b * (ratTrunc (toQ a / toQ b) : ℚ))

/-- JavaScript bitwise `&` (`ToInt32` both operands, AND the 32-bit
two's-complement representatives). -/
def jsAnd (a b : JSNum) : JSNum := .int (ofU32 (u32 a &&& u32 b))

/-- JavaScript bitwise `|`. -/
def jsOr (a b : JSNum) : JSNum := .int (ofU32 (u32 a ||| u32 b))

/-- JavaScript bitwise `^`. -/
def jsXor (a b : JSNum) : JSNum := .int (ofU32 (u32 a ^^^ u32 b))

/-- JavaScript unary `~`: on the 32-bit representative, `~x = -x - 1`. -/
def jsBitNot (a : JSNum) : JSNum := .int (-(toInt32 a) - 1)

/-- The shift count of a JavaScript shift: `ToUint32` of the right operand,
masked to 5 bits. -/
def shiftCount (b : JSNum) : ℕ := u32 b &&& 31

/-- JavaScript `<<`: shift the 32-bit representative left, wrapping into the
signed 32-bit range. -/
def jsShl (a b : JSNum) : JSNum := .int (wrap32 (toInt32 a * 2 ^ shiftCount b))

/-- JavaScript `>>` (sign-propagating right shift). -/
def jsSar (a b : JSNum) : JSNum := .int (toInt32 a >>> shiftCount b)

/-- JavaScript `>>>` (zero-fill right shift on the unsigned representative). -/
def jsShrU (a b : JSNum) : JSNum := .int ((u32 a >>> shiftCount b : ℕ) : ℤ)

/-- JavaScript strict equality `===` restricted to the values that occur here
(`NaN` equals nothing, `undefined === undefined`; an integral and a
non-integral number are never equal). -/
def jsStrictEq : JSNum → JSNum → Bool
  | .int a, .int b => a == b
  | .nonint p, .nonint q => p == q
  | .posInf, .posInf => true
  | .negInf, .negInf => true
  | .undefined, .undefined => true
  | _, _ => false

/-- JavaScript `<` on numbers (`false` whenever `NaN`/`undefined` is
involved). -/
def jsLtB : JSNum → JSNum → Bool
  | .int a, .int b => a < b
  | .nan, _ => false
  | _, .nan => false
  | .undefined, _ => false
  | _, .undefined => false
  | .posInf, _ => false
  | .negInf, .negInf => false
  | .negInf, _ => true
  | _, .posInf => true
  | _, .negInf => false
  | a, b => toQ a < toQ b

/-- JavaScript `>` on numbers. -/
def jsGtB (a b : JSNum) : Bool := jsLtB b a

/-- JavaScript truthiness of a value (`0`, `NaN` and `undefined` are falsy). -/
def truthy : JSNum → Bool
  | .int n => n != 0
  | .nonint q => q != 0
  | .nan => false
  | .undefined => false
  | _ => true

/-- Abbreviation for a byte-valued (natural) `JSNum`. -/
def jn (n : ℕ) : JSNum := .int (n : ℤ)

/-- The diagnostics the engine prints on its two fatal conditions and on `MOD 0`
(`console.log` messages in the source). -/
inductive ErrMsg where
  | divZero : ErrMsg
  | modZero : ErrMsg
  | invalidInstruction : JSNum → ErrMsg
deriving DecidableEq

/-- The CPU state: the 8-slot general-purpose register array `reg`, the
special-purpose properties `PC`, `IR`, `FL` stored alongside it in the source,
the global interrupt-recognition flag, the attached RAM, the halt latch
(set by `stop()`, which in the source clears both clocks and stops the
peripherals), the diagnostic log, and the bytes emitted by `PRN`/`PRA`.

The RAM collaborator is modelled from the spec: the external byte-addressable
memory exposing `read(address) -> byte` and `write(address, byte)` (§3, §6 of
the spec); it is embedded as a total map from JS-number keys with pointwise
update, so `read` after `write` at the same address returns the written
value. -/
structure State where
  r : Fin 8 → JSNum
  pc : JSNum
  ir : JSNum
  fl : JSNum
  interruptsEnabled : Bool
  halted : Bool
  mem : JSNum → JSNum
  err : List ErrMsg
  out : List JSNum

/-- `ram.write address value` (pointwise functional update). -/
def writeMem (m : JSNum → JSNum) (a v : JSNum) : JSNum → JSNum :=
  fun x => if x = a then v else m x

/-- Decode a JS number used as an index into the 8-slot register array. -/
def toRegIndex (x : JSNum) : Option (Fin 8) :=
  match x with
  | .int n => if h : 0 ≤ n ∧ n < 8 then some ⟨n.toNat, by omega⟩ else none
  | _ => none

/-- `this.reg[x]` for a numeric index: the slot if the index is 0–7,
`undefined` otherwise (out-of-range reads of a JS array). -/
def getReg (s : State) (x : JSNum) : JSNum :=
  match toRegIndex x with
  | some i => s.r i
  | none => .undefined

/-- `this.reg[x] = v` for a numeric index 0–7.  (A JS array would also accept
an out-of-range index, creating a slot no modelled program ever reads; such a
write is dropped here.) -/
def setReg (s : State) (x : JSNum) (v : JSNum) : State :=
  match toRegIndex x with
  | some i => { s with r := Function.update s.r i v }
  | none => s

/-- A register reference as passed to `alu`: either a numeric index into the
register array or the string key `PC` (the program counter property). -/
inductive RegT where
  | idx : JSNum → RegT
  | PC : RegT

/-- Read through a register reference. -/
def getRef (s : State) : RegT → JSNum
  | .idx x => getReg s x
  | .PC => s.pc

/-- Write through a register reference. -/
def setRef (s : State) (t : RegT) (v : JSNum) : State :=
  match t with
  | .idx x => setReg s x v
  | .PC => { s with pc := v }

/-- The operation names accepted by `alu` (string tags in the source). -/
inductive AluOp where
  | AND | OR | NOT | XOR | MUL | ADD | SUB | DIV | MOD | INC | DEC | CMP | SHL | SHR

/-- `stop()`: stop both clocks and all peripherals; the engine executes no
further ticks.  Modelled as latching `halted`. -/
def stop (s : State) : State := { s with halted := true }

/-- The value written to FL by `setFlag(f, v)`:
`FL |= (1 << f)` when the flag is set, `FL &= ~(1 << f)` when cleared. -/
def flOp (f : ℕ) (v : Bool) (x : JSNum) : JSNum :=
  if v then jsOr x (jsShl (.int 1) (.int f))
  else jsAnd x (jsBitNot (jsShl (.int 1) (.int f)))

/-- `setFlag(f, v)`: set or clear bit `f` of the FL register. -/
def setFlag (f : ℕ) (v : Bool) (s : State) : State := { s with fl := flOp f v s.fl }

/-- The value read by `getFlag(f)`: `(FL & (1 << f)) >> f`. -/
def getFlagVal (f : ℕ) (x : JSNum) : JSNum :=
  jsSar (jsAnd x (jsShl (.int 1) (.int f))) (.int f)

/-- `getFlag(f)`. -/
def getFlag (f : ℕ) (s : State) : JSNum := getFlagVal f s.fl

/-- The ALU (`alu(op, regA, regB, immediate)`).  `valA` is loaded from
`regA`; `valB` from the immediate if one is supplied, else from `regB` if one
is supplied, else it stays `undefined`.  Each case mirrors the corresponding
`switch` case of the source, including the absence of an early return after
`stop()` in the `DIV`/`MOD` zero-divisor checks. -/
def alu (op : AluOp) (regA : RegT) (regB : Option RegT) (immediate : Option JSNum)
    (s : State) : State :=
  let valA := getRef s regA
  let valB := match immediate with
    | some v => v
    | none =>
      match regB with
      | some rb => getRef s rb
      | none => JSNum.undefined
  match op with
  | .AND => setRef s regA (jsAnd valA valB)
  | .OR => setRef s regA (jsOr valA valB)
  | .NOT => setRef s regA (jsBitNot valA)
  | .XOR => setRef s regA (jsXor valA valB)
  | .MUL => setRef s regA (jsAnd (jsMul valA valB) (.int 255))
  | .ADD => setRef s regA (jsAnd (jsAdd valA valB) (.int 255))
  | .SUB => setRef s regA (jsAnd (jsSub valA valB) (.int 255))
  | .DIV =>
    let s1 := if jsStrictEq valB (.int 0) then { s with halted := true, err := .divZero :: s.err }
      else s
    setRef s1 regA (jsDiv valA valB)
  | .MOD =>
    let s1 := if jsStrictEq valB (.int 0) then { s with halted := true, err := .modZero :: s.err }
      else s
    setRef s1 regA (jsMod valA valB)
  | .INC => setRef s regA (jsAnd (jsAdd valA (.int 1)) (.int 255))
  | .DEC => setRef s regA (jsAnd (jsSub valA (.int 1)) (.int 255))
  | .CMP =>
    setFlag 2 (jsLtB valA valB) (setFlag 1 (jsGtB valA valB) (setFlag 0 (jsStrictEq valA valB) s))
  | .SHL =>
    setRef s regA (jsAnd (jsShl (getRef s regA)
      (match regB with | some rb => getRef s rb | none => JSNum.undefined)) (.int 255))
  | .SHR =>
    setRef s regA (jsAnd (jsShrU (getRef s regA)
      (match regB with | some rb => getRef s rb | none => JSNum.undefined)) (.int 255))

/-- `_push(val)`: decrement SP (register 7) through the ALU, then write the
value at the new SP. -/
def _push (val : JSNum) (s : State) : State :=
  let s1 := alu .DEC (.idx (jn 7)) none none s
  { s1 with mem := writeMem s1.mem (getReg s1 (jn 7)) val }

/-- `_pop()`: read the value at SP, then increment SP through the ALU;
returns the value and the new state. -/
def _pop (s : State) : JSNum × State :=
  let val := s.mem (getReg s (jn 7))
  (val, alu .INC (.idx (jn 7)) none none s)

/-- Register-array slot used as the interrupt mask (R5). -/
def IM : ℕ := 5

/-- Register-array slot used as the interrupt status (R6). -/
def IS : ℕ := 6

/-- Register-array slot used as the stack pointer (R7). -/
def SP : ℕ := 7

/-- `intMask[n]`, the per-line interrupt mask bits (`0x1 << n`). -/
def intMask (n : ℕ) : JSNum := .int (2 ^ n)

/-- `raiseInterrupt(n)`: set bit `n` in the IS register. -/
def raiseInterrupt (n : ℕ) (s : State) : State :=
  setReg s (jn IS) (jsOr (getReg s (jn IS)) (intMask n))

/-- `poke(address, value)`: store a value in memory (program loading). -/
def poke (s : State) (a v : JSNum) : State := { s with mem := writeMem s.mem a v }

/-- The constructor: general-purpose registers zeroed, IM = 0, IS = 0,
SP = 0xF4, PC/IR/FL = 0, interrupts enabled, given the RAM collaborator. -/
def initCPU (ram : JSNum → JSNum) : State :=
  { r := Function.update (fun _ => jn 0) 7 (jn 0xf4)
    pc := jn 0
    ir := jn 0
    fl := jn 0
    interruptsEnabled := true
    halted := false
    mem := ram
    err := []
    out := [] }

namespace CPU

/-- `ADD R,R`. -/
def ADD (regA regB : JSNum) (s : State) : State := alu .ADD (.idx regA) (some (.idx regB)) none s

/-- `AND R,R`. -/
def AND (regA regB : JSNum) (s : State) : State := alu .AND (.idx regA) (some (.idx regB)) none s

/-- `CMP R,R`. -/
def CMP (regA regB : JSNum) (s : State) : State := alu .CMP (.idx regA) (some (.idx regB)) none s

/-- `DIV R,R`. -/
def DIV (regA regB : JSNum) (s : State) : State := alu .DIV (.idx regA) (some (.idx regB)) none s

/-- `CALL R`: push `PC + 2`, then set PC to the address held in the operand
register (read after the push, as in the source). -/
def CALL (reg _b : JSNum) (s : State) : State :=
  let s1 := _push (jsAdd s.pc (.int 2)) s
  { s1 with pc := getReg s1 reg }

/-- `DEC R`. -/
def DEC (reg _b : JSNum) (s : State) : State := alu .DEC (.idx reg) none none s

/-- `HLT`. -/
def HLT (_a _b : JSNum) (s : State) : State := stop s

/-- `INC R`. -/
def INC (reg _b : JSNum) (s : State) : State := alu .INC (.idx reg) none none s

/-- `INT R`: OR the operand register's value into IM. -/
def INT (reg _b : JSNum) (s : State) : State :=
  setReg s (jn IM) (jsOr (getReg s (jn IM)) (getReg s reg))

/-- The `IRET` register-restoring loop: pop into registers 6 down to 0. -/
def iretPopLoop : ℕ → State → State
  | 0, s => s
  | n + 1, s =>
    let p := _pop s
    iretPopLoop n (setReg p.2 (jn n) p.1)

/-- `IRET`: pop registers 6..0, then FL, then PC; re-enable interrupts. -/
def IRET (_a _b : JSNum) (s : State) : State :=
  let s1 := iretPopLoop 7 s
  let p := _pop s1
  let s2 := { p.2 with fl := p.1 }
  let q := _pop s2
  { q.2 with pc := q.1, interruptsEnabled := true }

/-- `JEQ R`. -/
def JEQ (reg _b : JSNum) (s : State) : State :=
  if truthy (getFlag 0 s) then { s with pc := getReg s reg }
  else alu .ADD .PC none (some (.int 2)) s

/-- `JGE R`. -/
def JGE (reg _b : JSNum) (s : State) : State :=
  if truthy (getFlag 0 s) || truthy (getFlag 1 s) then { s with pc := getReg s reg }
  else alu .ADD .PC none (some (.int 2)) s

/-- `JGT R`. -/
def JGT (reg _b : JSNum) (s : State) : State :=
  if truthy (getFlag 1 s) then { s with pc := getReg s reg }
  else alu .ADD .PC none (some (.int 2)) s

/-- `JLT R`. -/
def JLT (reg _b : JSNum) (s : State) : State :=
  if truthy (getFlag 2 s) then { s with pc := getReg s reg }
  else alu .ADD .PC none (some (.int 2)) s

/-- `JLE R`. -/
def JLE (reg _b : JSNum) (s : State) : State :=
  if truthy (getFlag 0 s) || truthy (getFlag 2 s) then { s with pc := getReg s reg }
  else alu .ADD .PC none (some (.int 2)) s

/-- `JMP R`. -/
def JMP (reg _b : JSNum) (s : State) : State := { s with pc := getReg s reg }

/-- `JNE R`. -/
def JNE (reg _b : JSNum) (s : State) : State :=
  if !truthy (getFlag 0 s) then { s with pc := getReg s reg }
  else alu .ADD .PC none (some (.int 2)) s

/-- `LD R,R`: load the register from the memory address held in the second
register. -/
def LD (regA regB : JSNum) (s : State) : State :=
  setReg s regA (s.mem (getReg s regB))

/-- `LDI R,I`. -/
def LDI (reg val : JSNum) (s : State) : State := setReg s reg val

/-- `MOD R,R`. -/
def MOD (regA regB : JSNum) (s : State) : State := alu .MOD (.idx regA) (some (.idx regB)) none s

/-- `MUL R,R`. -/
def MUL (regA regB : JSNum) (s : State) : State := alu .MUL (.idx regA) (some (.idx regB)) none s

/-- `NOP`. -/
def NOP (_a _b : JSNum) (s : State) : State := s

/-- `NOT R`. -/
def NOT (reg _b : JSNum) (s : State) : State := alu .NOT (.idx reg) none none s

/-- `OR R,R`. -/
def OR (regA regB : JSNum) (s : State) : State := alu .OR (.idx regA) (some (.idx regB)) none s

/-- `POP R`. -/
def POP (reg _b : JSNum) (s : State) : State :=
  let p := _pop s
  setReg p.2 reg p.1

/-- `PRA R`: emit the register's value as a character. -/
def PRA (reg _b : JSNum) (s : State) : State := { s with out := getReg s reg :: s.out }

/-- `PRN R`: emit the register's value as a decimal. -/
def PRN (reg _b : JSNum) (s : State) : State := { s with out := getReg s reg :: s.out }

/-- `PUSH R`. -/
def PUSH (reg _b : JSNum) (s : State) : State := _push (getReg s reg) s

/-- `RET`: pop the return address into PC. -/
def RET (_a _b : JSNum) (s : State) : State :=
  let p := _pop s
  { p.2 with pc := p.1 }

/-- `SHL R,R`. -/
def SHL (regA regB : JSNum) (s : State) : State := alu .SHL (.idx regA) (some (.idx regB)) none s

/-- `SHR R,R`. -/
def SHR (regA regB : JSNum) (s : State) : State := alu .SHR (.idx regA) (some (.idx regB)) none s

/-- `ST R,R`: store the second register's value at the address held in the
first. -/
def ST (regA regB : JSNum) (s : State) : State :=
  { s with mem := writeMem s.mem (getReg s regA) (getReg s regB) }

/-- `SUB R,R`. -/
def SUB (regA regB : JSNum) (s : State) : State := alu .SUB (.idx regA) (some (.idx regB)) none s

/-- `XOR R,R`. -/
def XOR (regA regB : JSNum) (s : State) : State := alu .XOR (.idx regA) (some (.idx regB)) none s

end CPU

/-- The interrupt-service block inside `tick`, entered on the first pending
eligible line `i`: disable recognition, clear bit `i` of IS, push PC, FL,
then R0..R6, read the vector at `0xF8 + i`, and jump to it. -/
def serviceInterrupt (i : ℕ) (s : State) : State :=
  let s1 := { s with interruptsEnabled := false }
  let s2 := setReg s1 (jn IS) (jsAnd (getReg s1 (jn IS)) (jsBitNot (intMask i)))
  let s3 := _push s2.pc s2
  let s4 := _push s3.fl s3
  let s5 := intPushLoop 7 s4
  let vector := s5.mem (jn (0xf8 + i))
  { s5 with pc := vector }
where
  /-- The `for (let r = 0; r <= 6; r++) this._push(this.reg[r])` loop:
  `intPushLoop n` pushes registers 0 .. n-1 in ascending order. -/
  intPushLoop : ℕ → State → State
    | 0, s => s
    | n + 1, s =>
      let s1 := intPushLoop n s
      _push (getReg s1 (jn n)) s1

/-- The `for (let i = 0; i < 8; i++)` scan over masked interrupt bits:
service the first set bit and stop (the loop `break`s). -/
def interruptScan (masked : JSNum) (s : State) : ℕ → ℕ → State
  | 0, _ => s
  | fuel + 1, i =>
    if jsStrictEq (jsAnd (jsSar masked (jn i)) (.int 1)) (.int 1) then serviceInterrupt i s
    else interruptScan masked s fuel (i + 1)

/-- The interrupt check at the top of `tick`: only when interrupts are
globally enabled, scan `IS & IM`. -/
def interruptCheck (s : State) : State :=
  if s.interruptsEnabled then
    interruptScan (jsAnd (getReg s (jn IS)) (getReg s (jn IM))) s 8 0
  else s

/-- The opcode dispatch table (`branchTable`), keyed by the opcode byte. -/
def branchTable (x : JSNum) : Option (JSNum → JSNum → State → State) :=
  if x = jn 0b10100000 then some CPU.ADD
  else if x = jn 0b10101000 then some CPU.AND
  else if x = jn 0b01010000 then some CPU.CALL
  else if x = jn 0b10100111 then some CPU.CMP
  else if x = jn 0b01100110 then some CPU.DEC
  else if x = jn 0b10100011 then some CPU.DIV
  else if x = jn 0b00000001 then some CPU.HLT
  else if x = jn 0b01100101 then some CPU.INC
  else if x = jn 0b01010010 then some CPU.INT
  else if x = jn 0b00010011 then some CPU.IRET
  else if x = jn 0b01010101 then some CPU.JEQ
  else if x = jn 0b01011010 then some CPU.JGE
  else if x = jn 0b01010111 then some CPU.JGT
  else if x = jn 0b01011001 then some CPU.JLE
  else if x = jn 0b01011000 then some CPU.JLT
  else if x = jn 0b01010100 then some CPU.JMP
  else if x = jn 0b01010110 then some CPU.JNE
  else if x = jn 0b10000011 then some CPU.LD
  else if x = jn 0b10000010 then some CPU.LDI
  else if x = jn 0b10100100 then some CPU.MOD
  else if x = jn 0b10100010 then some CPU.MUL
  else if x = jn 0b00000000 then some CPU.NOP
  else if x = jn 0b01101001 then some CPU.NOT
  else if x = jn 0b10101010 then some CPU.OR
  else if x = jn 0b01000110 then some CPU.POP
  else if x = jn 0b01001000 then some CPU.PRA
  else if x = jn 0b01000111 then some CPU.PRN
  else if x = jn 0b01000101 then some CPU.PUSH
  else if x = jn 0b00010001 then some CPU.RET
  else if x = jn 0b10101100 then some CPU.SHL
  else if x = jn 0b10101101 then some CPU.SHR
  else if x = jn 0b10000100 then some CPU.ST
  else if x = jn 0b10100001 then some CPU.SUB
  else if x = jn 0b10101011 then some CPU.XOR
  else none

/-- One CPU cycle (`tick()`): interrupt check, fetch into IR, dispatch
(unknown opcode is a fatal decode error: report and stop without reading
operands or advancing PC), read the two potential operand bytes, execute the
handler, then advance PC by `1 + operandCount` unless bit 4 of IR is set. -/
def tick (s : State) : State :=
  let s0 := interruptCheck s
  let s1 := { s0 with ir := s0.mem s0.pc }
  match branchTable s1.ir with
  | none => stop { s1 with err := .invalidInstruction s1.ir :: s1.err }
  | some handler =>
    let operandA := s1.mem (jsAnd (jsAdd s1.pc (.int 1)) (.int 255))
    let operandB := s1.mem (jsAnd (jsAdd s1.pc (.int 2)) (.int 255))
    let s2 := handler operandA operandB s1
    if jsAnd s2.ir (.int 16) = .int 0 then
      let operandCount := jsAnd (jsSar s2.ir (.int 6)) (.int 3)
      let instSize := jsAdd operandCount (.int 1)
      alu .ADD .PC none (some instSize) s2
    else s2

/-- Clear bit `i` of a natural number (used to state the effect of
`IS &= ~intMask[i]`). -/
def clearBit (n i : ℕ) : ℕ := n % 2 ^ i + n / 2 ^ (i + 1) * 2 ^ (i + 1)

/-- The memory layout produced by the interrupt-entry context save on a
memory `m` with stack pointer `sp`: the nine cells below `sp` receive, in
push order, PC, FL, then registers 0–5 and the cleared IS value. -/
def intStackMem (m : JSNum → JSNum) (sp : ℕ) (pcv flv : JSNum) (r : Fin 8 → JSNum)
    (cleared : JSNum) : JSNum → JSNum :=
  writeMem (writeMem (writeMem (writeMem (writeMem (writeMem (writeMem (writeMem (writeMem m
    (jn ((sp + 255) % 256)) pcv)
    (jn ((sp + 254) % 256)) flv)
    (jn ((sp + 253) % 256)) (r 0))
    (jn ((sp + 252) % 256)) (r 1))
    (jn ((sp + 251) % 256)) (r 2))
    (jn ((sp + 250) % 256)) (r 3))
    (jn ((sp + 249) % 256)) (r 4))
    (jn ((sp + 248) % 256)) (r 5))
    (jn ((sp + 247) % 256)) cleared

/-- An all-zero RAM image. -/
def zeroRam : JSNum → JSNum := fun _ => jn 0

/-- The interrupt test scenario of the spec: a freshly constructed CPU with
IM bit 0 set, IS bit 0 raised, and vector-table entry 0xF8 = 0x50. -/
def intScenario : State :=
  poke (raiseInterrupt 0 (setReg (initCPU zeroRam) (jn IM) (jn 1))) (jn 0xf8) (jn 0x50)

/-- A freshly constructed CPU with registers 0 and 1 set to the two given
bytes (used to exercise two-operand ALU instructions). -/
def st2 (a b : ℕ) : State :=
  setReg (setReg (initCPU zeroRam) (jn 0) (jn a)) (jn 1) (jn b)

/-- A CPU about to execute `LDI 2, 7` at address 0 (opcode 0b10000010, bit 4
clear, two operands). -/
def ldiProg : State :=
  poke (poke (poke (initCPU zeroRam) (jn 0) (jn 0b10000010)) (jn 1) (jn 2)) (jn 2) (jn 7)

/-- A CPU about to execute `JMP 0` at address 0 (opcode 0b01010100, bit 4
set); register 0 holds 0, so the jump lands back on address 0. -/
def jmpProg : State := poke (initCPU zeroRam) (jn 0) (jn 0b01010100)

/-- A CPU whose PC points at the unmapped opcode byte 0xFF, with interrupts
disabled. -/
def badOpcode : State :=
  poke { initCPU zeroRam with interruptsEnabled := false } (jn 0) (jn 0xff)

/-- A CPU at a call site: PC = 16, register 2 holds the target address 99. -/
def callScenario : State := setReg { initCPU zeroRam with pc := jn 16 } (jn 2) (jn 99)

theorem wrap32_eq {t : ℤ} (h1 : -2147483648 ≤ t) (h2 : t < 2147483648) : wrap32 t = t := by
  unfold wrap32; omega

theorem toInt32_int {n : ℤ} (h1 : -2147483648 ≤ n) (h2 : n < 2147483648) :
    toInt32 (.int n) = n := by
  unfold toInt32; exact wrap32_eq h1 h2

theorem toInt32_jn {n : ℕ} (h : n < 2147483648) : toInt32 (jn n) = n :=
  toInt32_int (by omega) (by omega)

theorem u32_jn {n : ℕ} (h : n < 2147483648) : u32 (jn n) = n := by
  unfold u32; rw [toInt32_jn h]; omega

theorem ofU32_small {n : ℕ} (h : n < 2147483648) : ofU32 n = n := if_pos h

theorem jsAnd_jn {m n : ℕ} (hm : m < 2147483648) (hn : n < 2147483648) :
    jsAnd (jn m) (jn n) = jn (m &&& n) := by
  unfold jsAnd
  rw [u32_jn hm, u32_jn hn, ofU32_small (Nat.lt_of_le_of_lt Nat.and_le_right hn)]
  rfl

theorem jsOr_jn {m n : ℕ} (hm : m < 2147483648) (hn : n < 2147483648) :
    jsOr (jn m) (jn n) = jn (m ||| n) := by
  unfold jsOr
  rw [u32_jn hm, u32_jn hn, ofU32_small (Nat.or_lt_two_pow (n := 31) hm hn)]
  rfl

theorem jsAnd_int255 {a : ℤ} (h1 : -2147483648 ≤ a) (h2 : a < 2147483648) :
    jsAnd (.int a) (.int 255) = .int (a % 256) := by
  unfold jsAnd u32
  rw [toInt32_int h1 h2, toInt32_int (by norm_num) (by norm_num)]
  have h3 : ((255 : ℤ) % 4294967296).toNat = 255 := by decide
  rw [h3]
  have h4 : (a % 4294967296).toNat &&& 255 = (a % 4294967296).toNat % 256 := by
    have := Nat.and_pow_two_sub_one_eq_mod (a % 4294967296).toNat 8
    norm_num at this
    exact this
  rw [h4, ofU32_small (by omega)]
  have h5 : (((a % 4294967296).toNat % 256 : ℕ) : ℤ) = a % 256 := by omega
  rw [h5]

theorem jsSar_jn {m k : ℕ} (hm : m < 2147483648) (hk : k < 32) :
    jsSar (jn m) (jn k) = jn (m >>> k) := by
  unfold jsSar shiftCount
  rw [toInt32_jn hm, u32_jn (by omega)]
  have h1 : k &&& 31 = k := by
    have := Nat.and_pow_two_sub_one_eq_mod k 5
    norm_num at this
    omega
  rw [h1]
  exact congrArg JSNum.int (Int.natCast_shiftRight m k)

theorem jsBitNot_int {a : ℤ} (h1 : -2147483648 ≤ a) (h2 : a < 2147483648) :
    jsBitNot (.int a) = .int (-a - 1) := by
  unfold jsBitNot; rw [toInt32_int h1 h2]

theorem jsAdd_int (a b : ℤ) : jsAdd (.int a) (.int b) = .int (a + b) := rfl

theorem jsSub_int (a b : ℤ) : jsSub (.int a) (.int b) = .int (a - b) := rfl

theorem jsMul_int (a b : ℤ) : jsMul (.int a) (.int b) = .int (a * b) := rfl

theorem jsStrictEq_int (a b : ℤ) : jsStrictEq (.int a) (.int b) = (a == b) := rfl

theorem toRegIndex_fin (i : Fin 8) : toRegIndex (jn i) = some i := by
  simp only [toRegIndex, jn]
  rw [dif_pos ⟨Int.natCast_nonneg _, by exact_mod_cast i.isLt⟩]
  simp [Fin.ext_iff]

theorem getReg_fin (s : State) (i : Fin 8) : getReg s (jn i) = s.r i := by
  unfold getReg
  rw [toRegIndex_fin]

theorem setReg_fin (s : State) (i : Fin 8) (v : JSNum) :
    setReg s (jn i) v = { s with r := Function.update s.r i v } := by
  unfold setReg
  rw [toRegIndex_fin]

theorem getReg_nat (s : State) (n : ℕ) (h : n < 8) : getReg s (jn n) = s.r ⟨n, h⟩ := by
  unfold getReg
  rw [show toRegIndex (jn n) = some ⟨n, h⟩ from toRegIndex_fin ⟨n, h⟩]

theorem setReg_nat (s : State) (n : ℕ) (h : n < 8) (v : JSNum) :
    setReg s (jn n) v = { s with r := Function.update s.r ⟨n, h⟩ v } := by
  unfold setReg
  rw [show toRegIndex (jn n) = some ⟨n, h⟩ from toRegIndex_fin ⟨n, h⟩]

theorem push_eq (s : State) (v : JSNum) (sp : ℕ) (h7 : s.r 7 = jn sp) (hsp : sp < 256) :
    _push v s = { s with
      r := Function.update s.r 7 (jn ((sp + 255) % 256)),
      mem := writeMem s.mem (jn ((sp + 255) % 256)) v } := by
  unfold _push alu
  simp only [getRef, setRef]
  rw [getReg_nat s 7 (by omega), setReg_nat s 7 (by omega)]
  have e1 : jsAnd (jsSub (s.r ⟨7, by omega⟩) (.int 1)) (.int 255) = jn ((sp + 255) % 256) := by
    rw [show s.r ⟨7, by omega⟩ = jn sp from h7, jn, jsSub_int,
      jsAnd_int255 (by omega) (by omega)]
    unfold jn
    congr 1
    omega
  rw [e1]
  rw [getReg_nat _ 7 (by omega)]
  simp [Function.update_same]

theorem pop_eq (s : State) (sp : ℕ) (h7 : s.r 7 = jn sp) (hsp : sp < 256) :
    _pop s = (s.mem (jn sp),
      { s with r := Function.update s.r 7 (jn ((sp + 1) % 256)) }) := by
  unfold _pop alu
  simp only [getRef, setRef]
  rw [getReg_nat s 7 (by omega), setReg_nat s 7 (by omega)]
  have e1 : jsAnd (jsAdd (s.r ⟨7, by omega⟩) (.int 1)) (.int 255) = jn ((sp + 1) % 256) := by
    rw [show s.r ⟨7, by omega⟩ = jn sp from h7, jn, jsAdd_int,
      jsAnd_int255 (by omega) (by omega)]
    unfold jn
    congr 1
  have h7x : s.r ⟨7, by omega⟩ = jn sp := h7
  rw [e1, h7x]
  rfl

set_option maxRecDepth 4096 in
theorem clearBit_spec : ∀ (x : Fin 256) (i : Fin 8),
    jsAnd (jn x) (jsBitNot (intMask i)) = jn (clearBit x i) := by decide

theorem getReg0 (s : State) : getReg s (jn 0) = s.r 0 := getReg_nat s 0 (by omega)

theorem getReg1 (s : State) : getReg s (jn 1) = s.r 1 := getReg_nat s 1 (by omega)

theorem getReg2 (s : State) : getReg s (jn 2) = s.r 2 := getReg_nat s 2 (by omega)

theorem getReg3 (s : State) : getReg s (jn 3) = s.r 3 := getReg_nat s 3 (by omega)

theorem getReg4 (s : State) : getReg s (jn 4) = s.r 4 := getReg_nat s 4 (by omega)

theorem getReg5 (s : State) : getReg s (jn 5) = s.r 5 := getReg_nat s 5 (by omega)

theorem getReg6 (s : State) : getReg s (jn 6) = s.r 6 := getReg_nat s 6 (by omega)

theorem getReg7 (s : State) : getReg s (jn 7) = s.r 7 := getReg_nat s 7 (by omega)

theorem setReg6 (s : State) (v : JSNum) :
    setReg s (jn 6) v = { s with r := Function.update s.r 6 v } := by
  rw [setReg_nat s 6 (by omega)]
  rfl

theorem setReg7 (s : State) (v : JSNum) :
    setReg s (jn 7) v = { s with r := Function.update s.r 7 v } := by
  rw [setReg_nat s 7 (by omega)]
  rfl

theorem push_eq7 (s : State) (v : JSNum) (sp : ℕ) (h7 : s.r 7 = jn sp) (hsp : sp < 256) :
    _push v s = { s with
      r := Function.update s.r 7 (jn ((sp + 255) % 256)),
      mem := writeMem s.mem (jn ((sp + 255) % 256)) v } := push_eq s v sp h7 hsp

theorem serviceInterrupt_eq (i : ℕ) (hi : i < 8) (s : State) (sp isv : ℕ)
    (h7 : s.r 7 = jn sp) (hsp : sp < 256) (h6 : s.r 6 = jn isv) (his : isv < 256) :
    serviceInterrupt i s = { s with
      interruptsEnabled := false,
      r := Function.update (Function.update s.r 6 (jn (clearBit isv i))) 7
        (jn ((sp + 247) % 256)),
      pc := intStackMem s.mem sp s.pc s.fl s.r (jn (clearBit isv i)) (jn (0xf8 + i)),
      mem := intStackMem s.mem sp s.pc s.fl s.r (jn (clearBit isv i)) } := by
  have hc : jsAnd (jn isv) (jsBitNot (intMask i)) = jn (clearBit isv i) :=
    clearBit_spec ⟨isv, his⟩ ⟨i, hi⟩
  unfold serviceInterrupt
  dsimp only
  simp only [IS]
  rw [getReg6]
  dsimp only
  rw [h6, hc, setReg6]
  dsimp only
  have e1 := push_eq7
    { s with interruptsEnabled := false, r := Function.update s.r 6 (jn (clearBit isv i)) }
    s.pc sp (by dsimp only; rw [Function.update_noteq (by decide), h7]) hsp
  dsimp only at e1
  rw [e1]
  try dsimp only
  have e2 := push_eq7
    { s with
      interruptsEnabled := false,
      r := Function.update (Function.update s.r 6 (jn (clearBit isv i))) 7 (jn ((sp + 255) % 256)),
      mem := (writeMem s.mem (jn ((sp + 255) % 256)) (s.pc)) }
    (s.fl) ((sp + 255) % 256)
    (by dsimp only; rw [Function.update_same]) (by omega)
  rw [show (((sp + 255) % 256) + 255) % 256 = ((sp + 254) % 256) from by omega, Function.update_idem] at e2
  try dsimp only at e2
  simp only [serviceInterrupt.intPushLoop]
  rw [e2]
  try dsimp only
  rw [getReg0]
  try dsimp only
  rw [Function.update_noteq (show (0 : Fin 8) ≠ 7 by decide), Function.update_noteq (show (0 : Fin 8) ≠ 6 by decide)]
  have e3 := push_eq7
    { s with
      interruptsEnabled := false,
      r := Function.update (Function.update s.r 6 (jn (clearBit isv i))) 7 (jn ((sp + 254) % 256)),
      mem := (writeMem (writeMem s.mem (jn ((sp + 255) % 256)) (s.pc)) (jn ((sp + 254) % 256)) (s.fl)) }
    (s.r 0) ((sp + 254) % 256)
    (by dsimp only; rw [Function.update_same]) (by omega)
  rw [show (((sp + 254) % 256) + 255) % 256 = ((sp + 253) % 256) from by omega, Function.update_idem] at e3
  try dsimp only at e3
  rw [e3]
  try dsimp only
  rw [getReg1]
  try dsimp only
  rw [Function.update_noteq (show (1 : Fin 8) ≠ 7 by decide), Function.update_noteq (show (1 : Fin 8) ≠ 6 by decide)]
  have e4 := push_eq7
    { s with
      interruptsEnabled := false,
      r := Function.update (Function.update s.r 6 (jn (clearBit isv i))) 7 (jn ((sp + 253) % 256)),
      mem := (writeMem (writeMem (writeMem s.mem (jn ((sp + 255) % 256)) (s.pc)) (jn ((sp + 254) % 256)) (s.fl)) (jn ((sp + 253) % 256)) (s.r 0)) }
    (s.r 1) ((sp + 253) % 256)
    (by dsimp only; rw [Function.update_same]) (by omega)
  rw [show (((sp + 253) % 256) + 255) % 256 = ((sp + 252) % 256) from by omega, Function.update_idem] at e4
  try dsimp only at e4
  rw [e4]
  try dsimp only
  rw [getReg2]
  try dsimp only
  rw [Function.update_noteq (show (2 : Fin 8) ≠ 7 by decide), Function.update_noteq (show (2 : Fin 8) ≠ 6 by decide)]
  have e5 := push_eq7
    { s with
      interruptsEnabled := false,
      r := Function.update (Function.update s.r 6 (jn (clearBit isv i))) 7 (jn ((sp + 252) % 256)),
      mem := (writeMem (writeMem (writeMem (writeMem s.mem (jn ((sp + 255) % 256)) (s.pc)) (jn ((sp + 254) % 256)) (s.fl)) (jn ((sp + 253) % 256)) (s.r 0)) (jn ((sp + 252) % 256)) (s.r 1)) }
    (s.r 2) ((sp + 252) % 256)
    (by dsimp only; rw [Function.update_same]) (by omega)
  rw [show (((sp + 252) % 256) + 255) % 256 = ((sp + 251) % 256) from by omega, Function.update_idem] at e5
  try dsimp only at e5
  rw [e5]
  try dsimp only
  rw [getReg3]
  try dsimp only
  rw [Function.update_noteq (show (3 : Fin 8) ≠ 7 by decide), Function.update_noteq (show (3 : Fin 8) ≠ 6 by decide)]
  have e6 := push_eq7
    { s with
      interruptsEnabled := false,
      r := Function.update (Function.update s.r 6 (jn (clearBit isv i))) 7 (jn ((sp + 251) % 256)),
      mem := (writeMem (writeMem (writeMem (writeMem (writeMem s.mem (jn ((sp + 255) % 256)) (s.pc)) (jn ((sp + 254) % 256)) (s.fl)) (jn ((sp + 253) % 256)) (s.r 0)) (jn ((sp + 252) % 256)) (s.r 1)) (jn ((sp + 251) % 256)) (s.r 2)) }
    (s.r 3) ((sp + 251) % 256)
    (by dsimp only; rw [Function.update_same]) (by omega)
  rw [show (((sp + 251) % 256) + 255) % 256 = ((sp + 250) % 256) from by omega, Function.update_idem] at e6
  try dsimp only at e6
  rw [e6]
  try dsimp only
  rw [getReg4]
  try dsimp only
  rw [Function.update_noteq (show (4 : Fin 8) ≠ 7 by decide), Function.update_noteq (show (4 : Fin 8) ≠ 6 by decide)]
  have e7 := push_eq7
    { s with
      interruptsEnabled := false,
      r := Function.update (Function.update s.r 6 (jn (clearBit isv i))) 7 (jn ((sp + 250) % 256)),
      mem := (writeMem (writeMem (writeMem (writeMem (writeMem (writeMem s.mem (jn ((sp + 255) % 256)) (s.pc)) (jn ((sp + 254) % 256)) (s.fl)) (jn ((sp + 253) % 256)) (s.r 0)) (jn ((sp + 252) % 256)) (s.r 1)) (jn ((sp + 251) % 256)) (s.r 2)) (jn ((sp + 250) % 256)) (s.r 3)) }
    (s.r 4) ((sp + 250) % 256)
    (by dsimp only; rw [Function.update_same]) (by omega)
  rw [show (((sp + 250) % 256) + 255) % 256 = ((sp + 249) % 256) from by omega, Function.update_idem] at e7
  try dsimp only at e7
  rw [e7]
  try dsimp only
  rw [getReg5]
  try dsimp only
  rw [Function.update_noteq (show (5 : Fin 8) ≠ 7 by decide), Function.update_noteq (show (5 : Fin 8) ≠ 6 by decide)]
  have e8 := push_eq7
    { s with
      interruptsEnabled := false,
      r := Function.update (Function.update s.r 6 (jn (clearBit isv i))) 7 (jn ((sp + 249) % 256)),
      mem := (writeMem (writeMem (writeMem (writeMem (writeMem (writeMem (writeMem s.mem (jn ((sp + 255) % 256)) (s.pc)) (jn ((sp + 254) % 256)) (s.fl)) (jn ((sp + 253) % 256)) (s.r 0)) (jn ((sp + 252) % 256)) (s.r 1)) (jn ((sp + 251) % 256)) (s.r 2)) (jn ((sp + 250) % 256)) (s.r 3)) (jn ((sp + 249) % 256)) (s.r 4)) }
    (s.r 5) ((sp + 249) % 256)
    (by dsimp only; rw [Function.update_same]) (by omega)
  rw [show (((sp + 249) % 256) + 255) % 256 = ((sp + 248) % 256) from by omega, Function.update_idem] at e8
  try dsimp only at e8
  rw [e8]
  try dsimp only
  rw [getReg6]
  try dsimp only
  rw [Function.update_noteq (show (6 : Fin 8) ≠ 7 by decide), Function.update_same]
  have e9 := push_eq7
    { s with
      interruptsEnabled := false,
      r := Function.update (Function.update s.r 6 (jn (clearBit isv i))) 7 (jn ((sp + 248) % 256)),
      mem := (writeMem (writeMem (writeMem (writeMem (writeMem (writeMem (writeMem (writeMem s.mem (jn ((sp + 255) % 256)) (s.pc)) (jn ((sp + 254) % 256)) (s.fl)) (jn ((sp + 253) % 256)) (s.r 0)) (jn ((sp + 252) % 256)) (s.r 1)) (jn ((sp + 251) % 256)) (s.r 2)) (jn ((sp + 250) % 256)) (s.r 3)) (jn ((sp + 249) % 256)) (s.r 4)) (jn ((sp + 248) % 256)) (s.r 5)) }
    (jn (clearBit isv i)) ((sp + 248) % 256)
    (by dsimp only; rw [Function.update_same]) (by omega)
  rw [show (((sp + 248) % 256) + 255) % 256 = ((sp + 247) % 256) from by omega, Function.update_idem] at e9
  try dsimp only at e9
  rw [e9]
  try dsimp only
  unfold intStackMem
  rfl

theorem setReg0 (s : State) (v : JSNum) :
    setReg s (jn 0) v = { s with r := Function.update s.r 0 v } := by
  rw [setReg_nat s 0 (by omega)]
  rfl

theorem setReg1 (s : State) (v : JSNum) :
    setReg s (jn 1) v = { s with r := Function.update s.r 1 v } := by
  rw [setReg_nat s 1 (by omega)]
  rfl

theorem setReg2 (s : State) (v : JSNum) :
    setReg s (jn 2) v = { s with r := Function.update s.r 2 v } := by
  rw [setReg_nat s 2 (by omega)]
  rfl

theorem setReg3 (s : State) (v : JSNum) :
    setReg s (jn 3) v = { s with r := Function.update s.r 3 v } := by
  rw [setReg_nat s 3 (by omega)]
  rfl

theorem setReg4 (s : State) (v : JSNum) :
    setReg s (jn 4) v = { s with r := Function.update s.r 4 v } := by
  rw [setReg_nat s 4 (by omega)]
  rfl

theorem setReg5 (s : State) (v : JSNum) :
    setReg s (jn 5) v = { s with r := Function.update s.r 5 v } := by
  rw [setReg_nat s 5 (by omega)]
  rfl

theorem writeMem_eq (m : JSNum → JSNum) (a v : JSNum) : writeMem m a v a = v := if_pos rfl

theorem writeMem_ne (m : JSNum → JSNum) (a v x : JSNum) (h : x ≠ a) : writeMem m a v x = m x :=
  if_neg h

theorem jn_ne {a b : ℕ} (h : a ≠ b) : jn a ≠ jn b := by
  unfold jn
  intro hx
  injection hx with hx
  omega

set_option maxRecDepth 4096 in
theorem scanCond : ∀ (m : Fin 256) (j : Fin 8),
    jsStrictEq (jsAnd (jsSar (jn m) (jn j)) (.int 1)) (.int 1) = (m : ℕ).testBit j := by
  decide

theorem interruptCheck_fires (s : State) (imv isv : ℕ) (i : ℕ)
    (hIE : s.interruptsEnabled = true)
    (h5 : s.r 5 = jn imv) (h6 : s.r 6 = jn isv)
    (him : imv < 256) (his : isv < 256)
    (hi : i < 8)
    (hbit : (isv &&& imv).testBit i = true)
    (hlow : ∀ j, j < i → (isv &&& imv).testBit j = false) :
    interruptCheck s = serviceInterrupt i s := by
  have hm256 : isv &&& imv < 256 := lt_of_le_of_lt Nat.and_le_left his
  have hcond : ∀ j : ℕ, j < 8 →
      jsStrictEq (jsAnd (jsSar (jn (isv &&& imv)) (jn j)) (.int 1)) (.int 1)
        = (isv &&& imv).testBit j :=
    fun j hj => scanCond ⟨isv &&& imv, hm256⟩ ⟨j, hj⟩
  unfold interruptCheck
  rw [hIE]
  simp only [IS, IM, if_true]
  rw [getReg6, getReg5, h6, h5, jsAnd_jn (by omega) (by omega)]
  simp only [interruptScan]
  rw [hcond 0 (by omega), hcond 1 (by omega), hcond 2 (by omega), hcond 3 (by omega),
    hcond 4 (by omega), hcond 5 (by omega), hcond 6 (by omega), hcond 7 (by omega)]
  interval_cases i
  · rw [hbit]; simp
  · rw [hbit, hlow 0 (by omega)]; simp
  · rw [hbit, hlow 0 (by omega), hlow 1 (by omega)]; simp
  · rw [hbit, hlow 0 (by omega), hlow 1 (by omega), hlow 2 (by omega)]; simp
  · rw [hbit, hlow 0 (by omega), hlow 1 (by omega), hlow 2 (by omega), hlow 3 (by omega)]; simp
  · rw [hbit, hlow 0 (by omega), hlow 1 (by omega), hlow 2 (by omega), hlow 3 (by omega),
      hlow 4 (by omega)]; simp
  · rw [hbit, hlow 0 (by omega), hlow 1 (by omega), hlow 2 (by omega), hlow 3 (by omega),
      hlow 4 (by omega), hlow 5 (by omega)]; simp
  · rw [hbit, hlow 0 (by omega), hlow 1 (by omega), hlow 2 (by omega), hlow 3 (by omega),
      hlow 4 (by omega), hlow 5 (by omega), hlow 6 (by omega)]; simp
theorem readFrame0 (m0 : JSNum → JSNum) (sp : ℕ) (pcv flv : JSNum)
    (rs : Fin 8 → JSNum) (cv : JSNum) :
    intStackMem m0 sp pcv flv rs cv (jn ((sp + 247) % 256)) = cv := by
  unfold intStackMem
  rw [writeMem_eq]

theorem readFrame1 (m0 : JSNum → JSNum) (sp : ℕ) (pcv flv : JSNum)
    (rs : Fin 8 → JSNum) (cv : JSNum) :
    intStackMem m0 sp pcv flv rs cv (jn ((sp + 248) % 256)) = rs 5 := by
  unfold intStackMem
  rw [writeMem_ne, writeMem_eq]
  all_goals exact jn_ne (by omega)

theorem readFrame2 (m0 : JSNum → JSNum) (sp : ℕ) (pcv flv : JSNum)
    (rs : Fin 8 → JSNum) (cv : JSNum) :
    intStackMem m0 sp pcv flv rs cv (jn ((sp + 249) % 256)) = rs 4 := by
  unfold intStackMem
  rw [writeMem_ne, writeMem_ne, writeMem_eq]
  all_goals exact jn_ne (by omega)

theorem readFrame3 (m0 : JSNum → JSNum) (sp : ℕ) (pcv flv : JSNum)
    (rs : Fin 8 → JSNum) (cv : JSNum) :
    intStackMem m0 sp pcv flv rs cv (jn ((sp + 250) % 256)) = rs 3 := by
  unfold intStackMem
  rw [writeMem_ne, writeMem_ne, writeMem_ne, writeMem_eq]
  all_goals exact jn_ne (by omega)

theorem readFrame4 (m0 : JSNum → JSNum) (sp : ℕ) (pcv flv : JSNum)
    (rs : Fin 8 → JSNum) (cv : JSNum) :
    intStackMem m0 sp pcv flv rs cv (jn ((sp + 251) % 256)) = rs 2 := by
  unfold intStackMem
  rw [writeMem_ne, writeMem_ne, writeMem_ne, writeMem_ne, writeMem_eq]
  all_goals exact jn_ne (by omega)

theorem readFrame5 (m0 : JSNum → JSNum) (sp : ℕ) (pcv flv : JSNum)
    (rs : Fin 8 → JSNum) (cv : JSNum) :
    intStackMem m0 sp pcv flv rs cv (jn ((sp + 252) % 256)) = rs 1 := by
  unfold intStackMem
  rw [writeMem_ne, writeMem_ne, writeMem_ne, writeMem_ne, writeMem_ne, writeMem_eq]
  all_goals exact jn_ne (by omega)

theorem readFrame6 (m0 : JSNum → JSNum) (sp : ℕ) (pcv flv : JSNum)
    (rs : Fin 8 → JSNum) (cv : JSNum) :
    intStackMem m0 sp pcv flv rs cv (jn ((sp + 253) % 256)) = rs 0 := by
  unfold intStackMem
  rw [writeMem_ne, writeMem_ne, writeMem_ne, writeMem_ne, writeMem_ne, writeMem_ne, writeMem_eq]
  all_goals exact jn_ne (by omega)

theorem readFrame7 (m0 : JSNum → JSNum) (sp : ℕ) (pcv flv : JSNum)
    (rs : Fin 8 → JSNum) (cv : JSNum) :
    intStackMem m0 sp pcv flv rs cv (jn ((sp + 254) % 256)) = flv := by
  unfold intStackMem
  rw [writeMem_ne, writeMem_ne, writeMem_ne, writeMem_ne, writeMem_ne, writeMem_ne, writeMem_ne, writeMem_eq]
  all_goals exact jn_ne (by omega)

theorem readFrame8 (m0 : JSNum → JSNum) (sp : ℕ) (pcv flv : JSNum)
    (rs : Fin 8 → JSNum) (cv : JSNum) :
    intStackMem m0 sp pcv flv rs cv (jn ((sp + 255) % 256)) = pcv := by
  unfold intStackMem
  rw [writeMem_ne, writeMem_ne, writeMem_ne, writeMem_ne, writeMem_ne, writeMem_ne, writeMem_ne, writeMem_ne, writeMem_eq]
  all_goals exact jn_ne (by omega)
theorem iret_after_frame (s0 : State) (sp : ℕ) (hsp : sp < 256)
    (base : JSNum → JSNum) (pcv flv cv : JSNum) (rs : Fin 8 → JSNum)
    (hmem : s0.mem = intStackMem base sp pcv flv rs cv)
    (h7 : s0.r 7 = jn ((sp + 247) % 256)) (a b : JSNum) :
    CPU.IRET a b s0 = { s0 with
      interruptsEnabled := true,
      pc := pcv,
      fl := flv,
      r := fun j => if j = 7 then jn sp else if j = 6 then cv else if j = 5 then rs 5
        else if j = 4 then rs 4 else if j = 3 then rs 3 else if j = 2 then rs 2
        else if j = 1 then rs 1 else rs 0 } := by
  unfold CPU.IRET
  simp only [CPU.iretPopLoop]
  rw [pop_eq s0 ((sp + 247) % 256) h7 (by omega)]
  rw [hmem]
  dsimp only
  rw [show ((sp + 247) % 256 + 1) % 256 = (sp + 248) % 256 from by omega]
  rw [readFrame0 base sp pcv flv rs cv]
  rw [setReg6]
  dsimp only
  rw [pop_eq
    { s0 with
      r := Function.update (Function.update (s0.r) 7 (jn ((sp + 248) % 256))) 6 cv,
      mem := intStackMem base sp pcv flv rs cv }
    ((sp + 248) % 256)
    (by dsimp only; rw [Function.update_noteq (by decide), Function.update_same]) (by omega)]
  dsimp only
  rw [show ((sp + 248) % 256 + 1) % 256 = (sp + 249) % 256 from by omega]
  rw [readFrame1 base sp pcv flv rs cv]
  rw [setReg5]
  dsimp only
  rw [pop_eq
    { s0 with
      r := Function.update (Function.update (Function.update (Function.update (s0.r) 7 (jn ((sp + 248) % 256))) 6 cv) 7 (jn ((sp + 249) % 256))) 5 (rs 5),
      mem := intStackMem base sp pcv flv rs cv }
    ((sp + 249) % 256)
    (by dsimp only; rw [Function.update_noteq (by decide), Function.update_same]) (by omega)]
  dsimp only
  rw [show ((sp + 249) % 256 + 1) % 256 = (sp + 250) % 256 from by omega]
  rw [readFrame2 base sp pcv flv rs cv]
  rw [setReg4]
  dsimp only
  rw [pop_eq
    { s0 with
      r := Function.update (Function.update (Function.update (Function.update (Function.update (Function.update (s0.r) 7 (jn ((sp + 248) % 256))) 6 cv) 7 (jn ((sp + 249) % 256))) 5 (rs 5)) 7 (jn ((sp + 250) % 256))) 4 (rs 4),
      mem := intStackMem base sp pcv flv rs cv }
    ((sp + 250) % 256)
    (by dsimp only; rw [Function.update_noteq (by decide), Function.update_same]) (by omega)]
  dsimp only
  rw [show ((sp + 250) % 256 + 1) % 256 = (sp + 251) % 256 from by omega]
  rw [readFrame3 base sp pcv flv rs cv]
  rw [setReg3]
  dsimp only
  rw [pop_eq
    { s0 with
      r := Function.update (Function.update (Function.update (Function.update (Function.update (Function.update (Function.update (Function.update (s0.r) 7 (jn ((sp + 248) % 256))) 6 cv) 7 (jn ((sp + 249) % 256))) 5 (rs 5)) 7 (jn ((sp + 250) % 256))) 4 (rs 4)) 7 (jn ((sp + 251) % 256))) 3 (rs 3),
      mem := intStackMem base sp pcv flv rs cv }
    ((sp + 251) % 256)
    (by dsimp only; rw [Function.update_noteq (by decide), Function.update_same]) (by omega)]
  dsimp only
  rw [show ((sp + 251) % 256 + 1) % 256 = (sp + 252) % 256 from by omega]
  rw [readFrame4 base sp pcv flv rs cv]
  rw [setReg2]
  dsimp only
  rw [pop_eq
    { s0 with
      r := Function.update (Function.update (Function.update (Function.update (Function.update (Function.update (Function.update (Function.update (Function.update (Function.update (s0.r) 7 (jn ((sp + 248) % 256))) 6 cv) 7 (jn ((sp + 249) % 256))) 5 (rs 5)) 7 (jn ((sp + 250) % 256))) 4 (rs 4)) 7 (jn ((sp + 251) % 256))) 3 (rs 3)) 7 (jn ((sp + 252) % 256))) 2 (rs 2),
      mem := intStackMem base sp pcv flv rs cv }
    ((sp + 252) % 256)
    (by dsimp only; rw [Function.update_noteq (by decide), Function.update_same]) (by omega)]
  dsimp only
  rw [show ((sp + 252) % 256 + 1) % 256 = (sp + 253) % 256 from by omega]
  rw [readFrame5 base sp pcv flv rs cv]
  rw [setReg1]
  dsimp only
  rw [pop_eq
    { s0 with
      r := Function.update (Function.update (Function.update (Function.update (Function.update (Function.update (Function.update (Function.update (Function.update (Function.update (Function.update (Function.update (s0.r) 7 (jn ((sp + 248) % 256))) 6 cv) 7 (jn ((sp + 249) % 256))) 5 (rs 5)) 7 (jn ((sp + 250) % 256))) 4 (rs 4)) 7 (jn ((sp + 251) % 256))) 3 (rs 3)) 7 (jn ((sp + 252) % 256))) 2 (rs 2)) 7 (jn ((sp + 253) % 256))) 1 (rs 1),
      mem := intStackMem base sp pcv flv rs cv }
    ((sp + 253) % 256)
    (by dsimp only; rw [Function.update_noteq (by decide), Function.update_same]) (by omega)]
  dsimp only
  rw [show ((sp + 253) % 256 + 1) % 256 = (sp + 254) % 256 from by omega]
  rw [readFrame6 base sp pcv flv rs cv]
  rw [setReg0]
  dsimp only
  rw [pop_eq
    { s0 with
      r := Function.update (Function.update (Function.update (Function.update (Function.update (Function.update (Function.update (Function.update (Function.update (Function.update (Function.update (Function.update (Function.update (Function.update (s0.r) 7 (jn ((sp + 248) % 256))) 6 cv) 7 (jn ((sp + 249) % 256))) 5 (rs 5)) 7 (jn ((sp + 250) % 256))) 4 (rs 4)) 7 (jn ((sp + 251) % 256))) 3 (rs 3)) 7 (jn ((sp + 252) % 256))) 2 (rs 2)) 7 (jn ((sp + 253) % 256))) 1 (rs 1)) 7 (jn ((sp + 254) % 256))) 0 (rs 0),
      mem := intStackMem base sp pcv flv rs cv }
    ((sp + 254) % 256)
    (by dsimp only; rw [Function.update_noteq (by decide), Function.update_same]) (by omega)]
  dsimp only
  rw [show ((sp + 254) % 256 + 1) % 256 = (sp + 255) % 256 from by omega]
  rw [readFrame7 base sp pcv flv rs cv]
  rw [pop_eq
    { s0 with
      r := Function.update (Function.update (Function.update (Function.update (Function.update (Function.update (Function.update (Function.update (Function.update (Function.update (Function.update (Function.update (Function.update (Function.update (Function.update (s0.r) 7 (jn ((sp + 248) % 256))) 6 cv) 7 (jn ((sp + 249) % 256))) 5 (rs 5)) 7 (jn ((sp + 250) % 256))) 4 (rs 4)) 7 (jn ((sp + 251) % 256))) 3 (rs 3)) 7 (jn ((sp + 252) % 256))) 2 (rs 2)) 7 (jn ((sp + 253) % 256))) 1 (rs 1)) 7 (jn ((sp + 254) % 256))) 0 (rs 0)) 7 (jn ((sp + 255) % 256)),
      fl := flv,
      mem := intStackMem base sp pcv flv rs cv }
    ((sp + 255) % 256)
    (by dsimp only; rw [Function.update_same]) (by omega)]
  dsimp only
  rw [show ((sp + 255) % 256 + 1) % 256 = sp from by omega]
  rw [readFrame8 base sp pcv flv rs cv]
  rw [← hmem]
  congr 1
  funext j
  fin_cases j <;> simp [Function.update]

theorem setReg_ir (s : State) (x v : JSNum) : (setReg s x v).ir = s.ir := by
  unfold setReg
  cases h : toRegIndex x <;> rfl

theorem setRef_ir (s : State) (t : RegT) (v : JSNum) : (setRef s t v).ir = s.ir := by
  cases t <;> simp [setRef, setReg_ir]

theorem setFlag_ir (f : ℕ) (v : Bool) (s : State) : (setFlag f v s).ir = s.ir := rfl

theorem alu_ir (op : AluOp) (rA : RegT) (rB : Option RegT) (imm : Option JSNum) (s : State) :
    (alu op rA rB imm s).ir = s.ir := by
  unfold alu
  cases op <;> dsimp only <;>
    simp [setRef_ir, setFlag_ir, apply_ite State.ir]

theorem push_ir (v : JSNum) (s : State) : (_push v s).ir = s.ir := by
  unfold _push
  dsimp only
  rw [alu_ir]

theorem pop_ir (s : State) : ((_pop s).2).ir = s.ir := by
  unfold _pop
  dsimp only
  rw [alu_ir]

theorem iretPopLoop_ir (n : ℕ) (s : State) : (CPU.iretPopLoop n s).ir = s.ir := by
  induction n generalizing s with
  | zero => rfl
  | succ k ih => rw [CPU.iretPopLoop, ih, setReg_ir, pop_ir]

theorem ir_ADD (a b : JSNum) (st : State) : (CPU.ADD a b st).ir = st.ir := by
  simp [CPU.ADD, alu_ir]

theorem ir_AND (a b : JSNum) (st : State) : (CPU.AND a b st).ir = st.ir := by
  simp [CPU.AND, alu_ir]

theorem ir_CMP (a b : JSNum) (st : State) : (CPU.CMP a b st).ir = st.ir := by
  simp [CPU.CMP, alu_ir]

theorem ir_DIV (a b : JSNum) (st : State) : (CPU.DIV a b st).ir = st.ir := by
  simp [CPU.DIV, alu_ir]

theorem ir_CALL (a b : JSNum) (st : State) : (CPU.CALL a b st).ir = st.ir := by
  simp [CPU.CALL, push_ir]

theorem ir_DEC (a b : JSNum) (st : State) : (CPU.DEC a b st).ir = st.ir := by
  simp [CPU.DEC, alu_ir]

theorem ir_HLT (a b : JSNum) (st : State) : (CPU.HLT a b st).ir = st.ir := by
  simp [CPU.HLT, stop]

theorem ir_INC (a b : JSNum) (st : State) : (CPU.INC a b st).ir = st.ir := by
  simp [CPU.INC, alu_ir]

theorem ir_INT (a b : JSNum) (st : State) : (CPU.INT a b st).ir = st.ir := by
  simp [CPU.INT, setReg_ir]

theorem ir_IRET (a b : JSNum) (st : State) : (CPU.IRET a b st).ir = st.ir := by
  simp [CPU.IRET, pop_ir, iretPopLoop_ir]

theorem ir_JEQ (a b : JSNum) (st : State) : (CPU.JEQ a b st).ir = st.ir := by
  unfold CPU.JEQ; split <;> simp [alu_ir]

theorem ir_JGE (a b : JSNum) (st : State) : (CPU.JGE a b st).ir = st.ir := by
  unfold CPU.JGE; split <;> simp [alu_ir]

theorem ir_JGT (a b : JSNum) (st : State) : (CPU.JGT a b st).ir = st.ir := by
  unfold CPU.JGT; split <;> simp [alu_ir]

theorem ir_JLE (a b : JSNum) (st : State) : (CPU.JLE a b st).ir = st.ir := by
  unfold CPU.JLE; split <;> simp [alu_ir]

theorem ir_JLT (a b : JSNum) (st : State) : (CPU.JLT a b st).ir = st.ir := by
  unfold CPU.JLT; split <;> simp [alu_ir]

theorem ir_JMP (a b : JSNum) (st : State) : (CPU.JMP a b st).ir = st.ir := by
  simp [CPU.JMP]

theorem ir_JNE (a b : JSNum) (st : State) : (CPU.JNE a b st).ir = st.ir := by
  unfold CPU.JNE; split <;> simp [alu_ir]

theorem ir_LD (a b : JSNum) (st : State) : (CPU.LD a b st).ir = st.ir := by
  simp [CPU.LD, setReg_ir]

theorem ir_LDI (a b : JSNum) (st : State) : (CPU.LDI a b st).ir = st.ir := by
  simp [CPU.LDI, setReg_ir]

theorem ir_MOD (a b : JSNum) (st : State) : (CPU.MOD a b st).ir = st.ir := by
  simp [CPU.MOD, alu_ir]

theorem ir_MUL (a b : JSNum) (st : State) : (CPU.MUL a b st).ir = st.ir := by
  simp [CPU.MUL, alu_ir]

theorem ir_NOP (a b : JSNum) (st : State) : (CPU.NOP a b st).ir = st.ir := by
  simp [CPU.NOP]

theorem ir_NOT (a b : JSNum) (st : State) : (CPU.NOT a b st).ir = st.ir := by
  simp [CPU.NOT, alu_ir]

theorem ir_OR (a b : JSNum) (st : State) : (CPU.OR a b st).ir = st.ir := by
  simp [CPU.OR, alu_ir]

theorem ir_POP (a b : JSNum) (st : State) : (CPU.POP a b st).ir = st.ir := by
  simp [CPU.POP, setReg_ir, pop_ir]

theorem ir_PRA (a b : JSNum) (st : State) : (CPU.PRA a b st).ir = st.ir := by
  simp [CPU.PRA]

theorem ir_PRN (a b : JSNum) (st : State) : (CPU.PRN a b st).ir = st.ir := by
  simp [CPU.PRN]

theorem ir_PUSH (a b : JSNum) (st : State) : (CPU.PUSH a b st).ir = st.ir := by
  simp [CPU.PUSH, push_ir]

theorem ir_RET (a b : JSNum) (st : State) : (CPU.RET a b st).ir = st.ir := by
  simp [CPU.RET, pop_ir]

theorem ir_SHL (a b : JSNum) (st : State) : (CPU.SHL a b st).ir = st.ir := by
  simp [CPU.SHL, alu_ir]

theorem ir_SHR (a b : JSNum) (st : State) : (CPU.SHR a b st).ir = st.ir := by
  simp [CPU.SHR, alu_ir]

theorem ir_ST (a b : JSNum) (st : State) : (CPU.ST a b st).ir = st.ir := by
  simp [CPU.ST]

theorem ir_SUB (a b : JSNum) (st : State) : (CPU.SUB a b st).ir = st.ir := by
  simp [CPU.SUB, alu_ir]

theorem ir_XOR (a b : JSNum) (st : State) : (CPU.XOR a b st).ir = st.ir := by
  simp [CPU.XOR, alu_ir]

theorem handlerIr (x : JSNum) (h : JSNum → JSNum → State → State)
    (hbt : branchTable x = some h) (a b : JSNum) (st : State) : (h a b st).ir = st.ir := by
  unfold branchTable at hbt
  by_cases h0 : x = jn 0b10100000
  · rw [if_pos h0] at hbt
    cases hbt
    exact ir_ADD a b st
  rw [if_neg h0] at hbt
  by_cases h1 : x = jn 0b10101000
  · rw [if_pos h1] at hbt
    cases hbt
    exact ir_AND a b st
  rw [if_neg h1] at hbt
  by_cases h2 : x = jn 0b01010000
  · rw [if_pos h2] at hbt
    cases hbt
    exact ir_CALL a b st
  rw [if_neg h2] at hbt
  by_cases h3 : x = jn 0b10100111
  · rw [if_pos h3] at hbt
    cases hbt
    exact ir_CMP a b st
  rw [if_neg h3] at hbt
  by_cases h4 : x = jn 0b01100110
  · rw [if_pos h4] at hbt
    cases hbt
    exact ir_DEC a b st
  rw [if_neg h4] at hbt
  by_cases h5 : x = jn 0b10100011
  · rw [if_pos h5] at hbt
    cases hbt
    exact ir_DIV a b st
  rw [if_neg h5] at hbt
  by_cases h6 : x = jn 0b00000001
  · rw [if_pos h6] at hbt
    cases hbt
    exact ir_HLT a b st
  rw [if_neg h6] at hbt
  by_cases h7 : x = jn 0b01100101
  · rw [if_pos h7] at hbt
    cases hbt
    exact ir_INC a b st
  rw [if_neg h7] at hbt
  by_cases h8 : x = jn 0b01010010
  · rw [if_pos h8] at hbt
    cases hbt
    exact ir_INT a b st
  rw [if_neg h8] at hbt
  by_cases h9 : x = jn 0b00010011
  · rw [if_pos h9] at hbt
    cases hbt
    exact ir_IRET a b st
  rw [if_neg h9] at hbt
  by_cases h10 : x = jn 0b01010101
  · rw [if_pos h10] at hbt
    cases hbt
    exact ir_JEQ a b st
  rw [if_neg h10] at hbt
  by_cases h11 : x = jn 0b01011010
  · rw [if_pos h11] at hbt
    cases hbt
    exact ir_JGE a b st
  rw [if_neg h11] at hbt
  by_cases h12 : x = jn 0b01010111
  · rw [if_pos h12] at hbt
    cases hbt
    exact ir_JGT a b st
  rw [if_neg h12] at hbt
  by_cases h13 : x = jn 0b01011001
  · rw [if_pos h13] at hbt
    cases hbt
    exact ir_JLE a b st
  rw [if_neg h13] at hbt
  by_cases h14 : x = jn 0b01011000
  · rw [if_pos h14] at hbt
    cases hbt
    exact ir_JLT a b st
  rw [if_neg h14] at hbt
  by_cases h15 : x = jn 0b01010100
  · rw [if_pos h15] at hbt
    cases hbt
    exact ir_JMP a b st
  rw [if_neg h15] at hbt
  by_cases h16 : x = jn 0b01010110
  · rw [if_pos h16] at hbt
    cases hbt
    exact ir_JNE a b st
  rw [if_neg h16] at hbt
  by_cases h17 : x = jn 0b10000011
  · rw [if_pos h17] at hbt
    cases hbt
    exact ir_LD a b st
  rw [if_neg h17] at hbt
  by_cases h18 : x = jn 0b10000010
  · rw [if_pos h18] at hbt
    cases hbt
    exact ir_LDI a b st
  rw [if_neg h18] at hbt
  by_cases h19 : x = jn 0b10100100
  · rw [if_pos h19] at hbt
    cases hbt
    exact ir_MOD a b st
  rw [if_neg h19] at hbt
  by_cases h20 : x = jn 0b10100010
  · rw [if_pos h20] at hbt
    cases hbt
    exact ir_MUL a b st
  rw [if_neg h20] at hbt
  by_cases h21 : x = jn 0b00000000
  · rw [if_pos h21] at hbt
    cases hbt
    exact ir_NOP a b st
  rw [if_neg h21] at hbt
  by_cases h22 : x = jn 0b01101001
  · rw [if_pos h22] at hbt
    cases hbt
    exact ir_NOT a b st
  rw [if_neg h22] at hbt
  by_cases h23 : x = jn 0b10101010
  · rw [if_pos h23] at hbt
    cases hbt
    exact ir_OR a b st
  rw [if_neg h23] at hbt
  by_cases h24 : x = jn 0b01000110
  · rw [if_pos h24] at hbt
    cases hbt
    exact ir_POP a b st
  rw [if_neg h24] at hbt
  by_cases h25 : x = jn 0b01001000
  · rw [if_pos h25] at hbt
    cases hbt
    exact ir_PRA a b st
  rw [if_neg h25] at hbt
  by_cases h26 : x = jn 0b01000111
  · rw [if_pos h26] at hbt
    cases hbt
    exact ir_PRN a b st
  rw [if_neg h26] at hbt
  by_cases h27 : x = jn 0b01000101
  · rw [if_pos h27] at hbt
    cases hbt
    exact ir_PUSH a b st
  rw [if_neg h27] at hbt
  by_cases h28 : x = jn 0b00010001
  · rw [if_pos h28] at hbt
    cases hbt
    exact ir_RET a b st
  rw [if_neg h28] at hbt
  by_cases h29 : x = jn 0b10101100
  · rw [if_pos h29] at hbt
    cases hbt
    exact ir_SHL a b st
  rw [if_neg h29] at hbt
  by_cases h30 : x = jn 0b10101101
  · rw [if_pos h30] at hbt
    cases hbt
    exact ir_SHR a b st
  rw [if_neg h30] at hbt
  by_cases h31 : x = jn 0b10000100
  · rw [if_pos h31] at hbt
    cases hbt
    exact ir_ST a b st
  rw [if_neg h31] at hbt
  by_cases h32 : x = jn 0b10100001
  · rw [if_pos h32] at hbt
    cases hbt
    exact ir_SUB a b st
  rw [if_neg h32] at hbt
  by_cases h33 : x = jn 0b10101011
  · rw [if_pos h33] at hbt
    cases hbt
    exact ir_XOR a b st
  rw [if_neg h33] at hbt
  exact Option.noConfusion hbt

set_option maxRecDepth 8192 in
theorem bit4_iff : ∀ op : Fin 256,
    (jsAnd (jn op) (.int 16) = .int 0) ↔ ((op : ℕ).testBit 4 = false) := by decide

set_option maxRecDepth 8192 in
theorem cmpFlags : ∀ (fl : Fin 256) (e g l : Bool),
    getFlagVal 0 (flOp 2 l (flOp 1 g (flOp 0 e (jn fl)))) = jn (cond e 1 0) ∧
    getFlagVal 1 (flOp 2 l (flOp 1 g (flOp 0 e (jn fl)))) = jn (cond g 1 0) ∧
    getFlagVal 2 (flOp 2 l (flOp 1 g (flOp 0 e (jn fl)))) = jn (cond l 1 0) := by decide

theorem jsAdd_jn (m k : ℕ) : jsAdd (jn m) (jn k) = jn (m + k) := by
  unfold jn
  rw [jsAdd_int]
  congr 1

theorem jsAdd_jn_one (m : ℕ) : jsAdd (jn m) (.int 1) = jn (m + 1) := by
  unfold jn
  rw [jsAdd_int]
  congr 1

theorem jsAdd_jn_two (m : ℕ) : jsAdd (jn m) (.int 2) = jn (m + 2) := by
  unfold jn
  rw [jsAdd_int]
  congr 1

theorem jsAnd255_jn (m : ℕ) (hm : m < 2147483648) :
    jsAnd (jn m) (.int 255) = jn (m % 256) := by
  unfold jn
  rw [jsAnd_int255 (by omega) (by omega)]
  congr 1

/-- C1 (amended): when interrupts are enabled and line `i` is the
lowest-numbered eligible line (`IS & IM` has bit `i` set and no lower bit),
the interrupt check at the top of the tick services exactly line `i`:
recognition is disabled, bit `i` of IS is cleared, the pre-tick PC, then FL,
then registers 0–6 (ascending, register 6 already cleared) are pushed onto
the stack in that exact order, SP drops by nine, and PC becomes the byte read
from memory address `0xF8 + i` after those pushes.  The tick then proceeds to
fetch and execute at the new PC, so these are the post-entry (not
post-tick) values. -/
theorem C1_interrupt_service (s : State) (imv isv sp : ℕ) (i : ℕ)
    (hIE : s.interruptsEnabled = true)
    (h5 : s.r 5 = jn imv) (h6 : s.r 6 = jn isv) (h7 : s.r 7 = jn sp)
    (him : imv < 256) (his : isv < 256) (hsp : sp < 256)
    (hi : i < 8) (hbit : (isv &&& imv).testBit i = true)
    (hlow : ∀ j, j < i → (isv &&& imv).testBit j = false) :
    interruptCheck s = { s with
      interruptsEnabled := false,
      r := Function.update (Function.update s.r 6 (jn (clearBit isv i))) 7
        (jn ((sp + 247) % 256)),
      pc := intStackMem s.mem sp s.pc s.fl s.r (jn (clearBit isv i)) (jn (0xf8 + i)),
      mem := intStackMem s.mem sp s.pc s.fl s.r (jn (clearBit isv i)) } :=
  (interruptCheck_fires s imv isv i hIE h5 h6 him his hi hbit hlow).trans
    (serviceInterrupt_eq i hi s sp isv h7 hsp h6 his)

set_option maxRecDepth 100000 in
/-- C1 witness: the spec's concrete scenario (IM bit 0, IS bit 0, vector
0xF8 = 0x50) after the interrupt-entry phase: PC = 0x50, IS cleared,
recognition disabled, SP = 0xEB, and the frame holds the pre-interrupt PC,
FL and registers. -/
theorem C1_interrupt_service_witness :
    (interruptCheck intScenario).interruptsEnabled = false ∧
    (interruptCheck intScenario).pc = jn 0x50 ∧
    (interruptCheck intScenario).r 6 = jn 0 ∧
    (interruptCheck intScenario).r 7 = jn 0xeb ∧
    (interruptCheck intScenario).mem (jn 0xf3) = jn 0 ∧
    (interruptCheck intScenario).mem (jn 0xf2) = jn 0 ∧
    (interruptCheck intScenario).mem (jn 0xeb) = jn 0 := by
  have h := C1_interrupt_service intScenario 1 1 0xf4 0 rfl rfl rfl rfl (by omega) (by omega)
    (by omega) (by omega) (by decide) (fun j hj => absurd hj (by omega))
  rw [h]
  exact ⟨rfl, by decide, by decide, by decide, by decide, by decide, by decide⟩

set_option maxRecDepth 1000000 in
/-- C1 counterexample: in the same scenario the claim asserts `PC == 0x50`
after one full tick, but the tick continues after interrupt entry and
executes the instruction at 0x50 (a NOP here), advancing PC to 0x51. -/
theorem C1_full_tick_cex :
    (tick intScenario).pc = jn 0x51 ∧ (tick intScenario).pc ≠ jn 0x50 := by
  exact ⟨by decide, by decide⟩

set_option maxRecDepth 8192 in
/-- C2: the claim's mod-256 invariant is broken by the `NOT` ALU case, which
stores the raw JavaScript `~valA` without masking: `NOT` on a register
holding 0 stores -1, not 255.  (The `ADD` wraparound example of the claim
does hold: 250 + 10 stores 4.) -/
theorem C2_not_breaks_invariant :
    (CPU.NOT (jn 0) (jn 0) (st2 0 0)).r 0 = JSNum.int (-1) ∧
    JSNum.int (-1) ≠ jn 255 ∧
    (CPU.ADD (jn 0) (jn 1) (st2 250 10)).r 0 = jn 4 := by
  exact ⟨by decide, by decide, by decide⟩

set_option maxRecDepth 8192 in
/-- C3: `DIV` with a zero divisor does call the `HLT` shutdown path
(`stop()`), but the source has no early return, so it still overwrites the
destination register with `valA / 0` (`Infinity`): with R0 = 5, R1 = 0, the
destination does not keep its prior value 5. -/
theorem C3_div_zero_still_writes :
    (CPU.DIV (jn 0) (jn 1) (st2 5 0)).halted = true ∧
    (CPU.DIV (jn 0) (jn 1) (st2 5 0)).err = [ErrMsg.divZero] ∧
    (CPU.DIV (jn 0) (jn 1) (st2 5 0)).r 0 = JSNum.posInf ∧
    (CPU.DIV (jn 0) (jn 1) (st2 5 0)).r 0 ≠ (st2 5 0).r 0 := by
  exact ⟨by decide, by decide, by decide, by decide⟩

set_option maxRecDepth 8192 in
/-- C9: `DIV` uses JavaScript float division, not integer division: with
operand values 5 and 2 the destination receives the non-integral quotient
5/2, not the integer quotient 2.  (`MOD` does compute the integer remainder:
7 mod 3 stores 1.) -/
theorem C9_div_not_integer :
    (CPU.DIV (jn 0) (jn 1) (st2 5 2)).r 0
      = JSNum.nonint ((((5 : ℕ) : ℤ) : ℚ) / (((2 : ℕ) : ℤ) : ℚ)) ∧
    (CPU.DIV (jn 0) (jn 1) (st2 5 2)).r 0 ≠ jn 2 ∧
    (CPU.MOD (jn 0) (jn 1) (st2 7 3)).r 0 = jn 1 := by
  refine ⟨rfl, by decide, by decide⟩

/-- C5 (amended): interrupt entry followed immediately by `IRET` restores
PC, FL and registers R0–R5 to their pre-interrupt values, restores SP, and
re-enables interrupt recognition; register R6 (the IS register) is restored
to its value at entry — the pre-interrupt IS with the serviced bit `i`
cleared — not to its pre-interrupt value.  The saved frame remains in the
nine stack cells below the original SP. -/
theorem C5_iret_roundtrip (s : State) (imv isv sp : ℕ) (i : ℕ)
    (hIE : s.interruptsEnabled = true)
    (h5 : s.r 5 = jn imv) (h6 : s.r 6 = jn isv) (h7 : s.r 7 = jn sp)
    (him : imv < 256) (his : isv < 256) (hsp : sp < 256)
    (hi : i < 8) (hbit : (isv &&& imv).testBit i = true)
    (hlow : ∀ j, j < i → (isv &&& imv).testBit j = false) (a b : JSNum) :
    CPU.IRET a b (interruptCheck s) = { s with
      interruptsEnabled := true,
      r := Function.update s.r 6 (jn (clearBit isv i)),
      mem := intStackMem s.mem sp s.pc s.fl s.r (jn (clearBit isv i)) } := by
  rw [(interruptCheck_fires s imv isv i hIE h5 h6 him his hi hbit hlow).trans
    (serviceInterrupt_eq i hi s sp isv h7 hsp h6 his)]
  rw [iret_after_frame _ sp hsp s.mem s.pc s.fl (jn (clearBit isv i)) s.r rfl
    (by dsimp only; rw [Function.update_same]) a b]
  congr 1
  funext j
  fin_cases j <;> simp [Function.update]
  exact h7.symm

set_option maxRecDepth 1000000 in
/-- C5 witness: the concrete interrupt scenario followed by `IRET`:
everything is restored (PC, FL, R0–R5, SP) and interrupts are re-enabled,
with R6 holding the cleared IS value 0 and the frame left on the stack. -/
theorem C5_iret_roundtrip_witness :
    CPU.IRET (jn 0) (jn 0) (interruptCheck intScenario) = { intScenario with
      interruptsEnabled := true,
      r := Function.update intScenario.r 6 (jn (clearBit 1 0)),
      mem := intStackMem intScenario.mem 0xf4 intScenario.pc intScenario.fl
        intScenario.r (jn (clearBit 1 0)) } :=
  C5_iret_roundtrip intScenario 1 1 0xf4 0 rfl rfl rfl rfl (by omega) (by omega) (by omega)
    (by omega) (by decide) (fun j hj => absurd hj (by omega)) (jn 0) (jn 0)

set_option maxRecDepth 1000000 in
/-- C5 counterexample: the claim says IRET restores R0–R6 to their
pre-interrupt values, but R6 (IS) comes back with the serviced bit cleared:
pre-interrupt IS = 1, post-IRET IS = 0. -/
theorem C5_is_register_cex :
    (CPU.IRET (jn 0) (jn 0) (interruptCheck intScenario)).r 6 = jn 0 ∧
    intScenario.r 6 = jn 1 ∧
    (CPU.IRET (jn 0) (jn 0) (interruptCheck intScenario)).r 6 ≠ intScenario.r 6 := by
  exact ⟨by decide, by decide, by decide⟩

/-- C6 (amended): for a CALL at address `p` whose operand register is not
the stack pointer R7, the byte `p + 2` is pushed (SP drops to `sp - 1`, the
cell receives exactly `p + 2`, unmasked) and PC becomes the address `t` held
in the operand register; any RET executed with the stack at this entry depth
(same SP, same top-of-stack cell) then sets PC to exactly `p + 2`.  When the
operand register is R7 itself, the push's SP decrement happens before the
target read, so the jump goes to `sp - 1`, not to the value R7 held. -/
theorem C6_call_ret (s : State) (p t sp : ℕ) (r : Fin 8) (hr : r ≠ 7)
    (hpc : s.pc = jn p) (h7 : s.r 7 = jn sp) (hsp : sp < 256)
    (ht : s.r r = jn t) (b : JSNum) :
    (CPU.CALL (jn r) b s).pc = jn t ∧
    (CPU.CALL (jn r) b s).r 7 = jn ((sp + 255) % 256) ∧
    (CPU.CALL (jn r) b s).mem (jn ((sp + 255) % 256)) = jn (p + 2) ∧
    (∀ s' : State, s'.r 7 = jn ((sp + 255) % 256) →
      s'.mem (jn ((sp + 255) % 256)) = jn (p + 2) →
      ∀ a b2 : JSNum, (CPU.RET a b2 s').pc = jn (p + 2)) := by
  have hcall : CPU.CALL (jn r) b s = { s with
      pc := Function.update s.r 7 (jn ((sp + 255) % 256)) r,
      r := Function.update s.r 7 (jn ((sp + 255) % 256)),
      mem := writeMem s.mem (jn ((sp + 255) % 256)) (jn (p + 2)) } := by
    unfold CPU.CALL
    rw [hpc, jsAdd_jn_two, push_eq7 s _ sp h7 hsp]
    dsimp only
    rw [getReg_fin]
  refine ⟨?_, ?_, ?_, ?_⟩
  · rw [hcall]
    dsimp only
    rw [Function.update_noteq hr, ht]
  · rw [hcall]
    dsimp only
    rw [Function.update_same]
  · rw [hcall]
    dsimp only
    rw [writeMem_eq]
  · intro s' h7x hmx a b2
    unfold CPU.RET
    rw [pop_eq s' ((sp + 255) % 256) h7x (by omega)]
    dsimp only
    exact hmx

/-- C6 witness: CALL from address 16 through register 2 holding 99 jumps to
99 and pushes 18; RET then returns to 18 = 16 + 2. -/
theorem C6_call_ret_witness :
    (CPU.CALL (jn 2) (jn 0) callScenario).pc = jn 99 ∧
    (CPU.RET (jn 0) (jn 0) (CPU.CALL (jn 2) (jn 0) callScenario)).pc = jn 18 := by
  have h := C6_call_ret callScenario 16 99 0xf4 2 (by decide) rfl rfl (by omega) rfl (jn 0)
  exact ⟨h.1, h.2.2.2 _ h.2.1 h.2.2.1 (jn 0) (jn 0)⟩

set_option maxRecDepth 8192 in
/-- C6 counterexample: with the operand register equal to R7 (the stack
pointer, holding 0xF4), CALL jumps to 0xF3 — the post-push SP — rather than
to the address 0xF4 the register held, because the target is read after the
push has decremented SP. -/
theorem C6_call_sp_operand_cex :
    callScenario.r 7 = jn 0xf4 ∧
    (CPU.CALL (jn 7) (jn 0) callScenario).pc = jn 0xf3 ∧
    (CPU.CALL (jn 7) (jn 0) callScenario).pc ≠ jn 0xf4 := by
  exact ⟨by decide, by decide, by decide⟩

/-- C7: PUSH then POP on the same register is a net identity on that
register and on SP, for every register index (including R7 itself) and every
state whose SP holds a byte: PUSH decrements SP then writes the register's
value at the new SP, POP reads it back and re-increments SP. -/
theorem C7_push_pop (s : State) (r : Fin 8) (sp : ℕ)
    (h7 : s.r 7 = jn sp) (hsp : sp < 256) (b b2 : JSNum) :
    (CPU.POP (jn r) b2 (CPU.PUSH (jn r) b s)).r r = s.r r ∧
    (CPU.POP (jn r) b2 (CPU.PUSH (jn r) b s)).r 7 = s.r 7 := by
  have hpush : CPU.PUSH (jn r) b s = { s with
      r := Function.update s.r 7 (jn ((sp + 255) % 256)),
      mem := writeMem s.mem (jn ((sp + 255) % 256)) (s.r r) } := by
    unfold CPU.PUSH
    rw [getReg_fin, push_eq7 s _ sp h7 hsp]
  have hpop : CPU.POP (jn r) b2 (CPU.PUSH (jn r) b s) = { s with
      r := Function.update
        (Function.update (Function.update s.r 7 (jn ((sp + 255) % 256))) 7
          (jn (((sp + 255) % 256 + 1) % 256))) r (s.r r),
      mem := writeMem s.mem (jn ((sp + 255) % 256)) (s.r r) } := by
    unfold CPU.POP
    rw [hpush]
    rw [pop_eq _ ((sp + 255) % 256) (by dsimp only; rw [Function.update_same]) (by omega)]
    dsimp only
    rw [writeMem_eq, setReg_fin]
  rw [hpop]
  dsimp only
  constructor
  · rw [Function.update_same]
  · rcases eq_or_ne r 7 with hr | hr
    · rw [hr, Function.update_same]
    · rw [Function.update_noteq (Ne.symm ?_), Function.update_idem, Function.update_same]
      · rw [show ((sp + 255) % 256 + 1) % 256 = sp from by omega, h7]
      · exact hr

/-- C7 witness: PUSH 0 then POP 0 on a fresh CPU with R0 = 99 restores
R0 = 99 and leaves SP at its initial value 0xF4. -/
theorem C7_push_pop_witness :
    (CPU.POP (jn 0) (jn 0) (CPU.PUSH (jn 0) (jn 0) (st2 99 0))).r 0 = (st2 99 0).r 0 ∧
    (CPU.POP (jn 0) (jn 0) (CPU.PUSH (jn 0) (jn 0) (st2 99 0))).r 7 = (st2 99 0).r 7 :=
  C7_push_pop (st2 99 0) 0 0xf4 (by decide) (by omega) (jn 0) (jn 0)

theorem cond_stricteq_int (a b : ℤ) (x y : ℕ) :
    jn (cond (jsStrictEq (.int a) (.int b)) x y) = jn (if a = b then x else y) := by
  rw [jsStrictEq_int]
  by_cases h : a = b <;> simp [h, Bool.cond_eq_ite, beq_iff_eq]

theorem cond_ltb_int (a b : ℤ) (x y : ℕ) :
    jn (cond (jsLtB (.int a) (.int b)) x y) = jn (if a < b then x else y) := by
  by_cases h : a < b <;> simp [jsLtB, h, Bool.cond_decide]

theorem cond_gtb_int (a b : ℤ) (x y : ℕ) :
    jn (cond (jsGtB (.int a) (.int b)) x y) = jn (if a > b then x else y) := by
  by_cases h : b < a <;> simp [jsGtB, jsLtB, h, gt_iff_lt, Bool.cond_decide]

/-- C8: `CMP` writes no register (the whole register file is unchanged) and
sets the flags to exactly EQ = (a = b), GT = (a > b), LT = (a < b) on the
raw operand values (arbitrary integers, no masking). -/
theorem C8_cmp_flags (s : State) (a b : ℤ) (i j : Fin 8) (fl : ℕ)
    (ha : s.r i = .int a) (hb : s.r j = .int b) (hfl : s.fl = jn fl) (hfl256 : fl < 256) :
    (CPU.CMP (jn i) (jn j) s).r = s.r ∧
    getFlag 0 (CPU.CMP (jn i) (jn j) s) = jn (if a = b then 1 else 0) ∧
    getFlag 1 (CPU.CMP (jn i) (jn j) s) = jn (if a > b then 1 else 0) ∧
    getFlag 2 (CPU.CMP (jn i) (jn j) s) = jn (if a < b then 1 else 0) := by
  have hcmp : CPU.CMP (jn i) (jn j) s = { s with
      fl := flOp 2 (jsLtB (.int a) (.int b)) (flOp 1 (jsGtB (.int a) (.int b))
        (flOp 0 (jsStrictEq (.int a) (.int b)) s.fl)) } := by
    unfold CPU.CMP alu
    dsimp only
    simp only [getRef]
    rw [getReg_fin s i, getReg_fin s j, ha, hb]
    unfold setFlag
    dsimp only
  have key := cmpFlags ⟨fl, hfl256⟩ (jsStrictEq (.int a) (.int b))
    (jsGtB (.int a) (.int b)) (jsLtB (.int a) (.int b))
  refine ⟨by rw [hcmp], ?_, ?_, ?_⟩
  · rw [hcmp]
    unfold getFlag
    dsimp only
    rw [hfl, key.1, cond_stricteq_int]
  · rw [hcmp]
    unfold getFlag
    dsimp only
    rw [hfl, key.2.1, cond_gtb_int]
  · rw [hcmp]
    unfold getFlag
    dsimp only
    rw [hfl, key.2.2, cond_ltb_int]

/-- C8 witness: CMP on 5,5 yields EQ=1,GT=0,LT=0; on 7,3 yields GT=1; on 3,7
yields LT=1; no register is written. -/
theorem C8_cmp_flags_witness :
    ((CPU.CMP (jn 0) (jn 1) (st2 5 5)).r = (st2 5 5).r ∧
      getFlag 0 (CPU.CMP (jn 0) (jn 1) (st2 5 5)) = jn 1 ∧
      getFlag 1 (CPU.CMP (jn 0) (jn 1) (st2 5 5)) = jn 0 ∧
      getFlag 2 (CPU.CMP (jn 0) (jn 1) (st2 5 5)) = jn 0) ∧
    getFlag 1 (CPU.CMP (jn 0) (jn 1) (st2 7 3)) = jn 1 ∧
    getFlag 2 (CPU.CMP (jn 0) (jn 1) (st2 3 7)) = jn 1 := by
  have h1 := C8_cmp_flags (st2 5 5) 5 5 0 1 0 rfl rfl rfl (by omega)
  have h2 := C8_cmp_flags (st2 7 3) 7 3 0 1 0 rfl rfl rfl (by omega)
  have h3 := C8_cmp_flags (st2 3 7) 3 7 0 1 0 rfl rfl rfl (by omega)
  exact ⟨⟨h1.1, h1.2.1.trans (by norm_num), h1.2.2.1.trans (by norm_num),
    h1.2.2.2.trans (by norm_num)⟩, h2.2.2.1.trans (by norm_num), h3.2.2.2.trans (by norm_num)⟩

/-- C10: in a tick that services no interrupt, fetching an opcode byte with
no dispatch-table entry loads it into IR, reports the fatal decode error,
and stops the engine; nothing else changes — PC, all registers, flags and
memory are untouched and no handler runs. -/
theorem C10_unknown_opcode (s : State) (op : ℕ)
    (hNoInt : interruptCheck s = s)
    (hop : s.mem s.pc = jn op)
    (hbt : branchTable (jn op) = none) :
    tick s = { s with
      ir := jn op,
      halted := true,
      err := .invalidInstruction (jn op) :: s.err } := by
  unfold tick
  rw [hNoInt]
  dsimp only
  rw [hop, hbt]
  rfl

/-- C10 witness: the unmapped opcode byte 0xFF at PC halts the engine with a
decode diagnostic, leaving every other component of the state unchanged. -/
theorem C10_unknown_opcode_witness :
    tick badOpcode = { badOpcode with
      ir := jn 0xff,
      halted := true,
      err := [ErrMsg.invalidInstruction (jn 0xff)] } :=
  C10_unknown_opcode badOpcode 0xff rfl rfl rfl

/-- C4: in a tick that services no interrupt and dispatches the fetched
opcode `op` to its handler: if bit 4 of `op` is clear, the loop advances PC
itself by `1 + operandCount` (mod 256) where `operandCount = (op >> 6) & 3`,
on top of whatever PC the handler produced; if bit 4 is set, the tick
returns exactly the handler's result state — the loop never touches PC. -/
theorem C4_pc_advance (s : State) (op : ℕ) (h : JSNum → JSNum → State → State)
    (hNoInt : interruptCheck s = s)
    (hop : s.mem s.pc = jn op) (hop256 : op < 256)
    (hbt : branchTable (jn op) = some h) :
    (op.testBit 4 = false → ∀ p2 : ℕ, p2 < 256 →
      (h (s.mem (jsAnd (jsAdd s.pc (.int 1)) (.int 255)))
        (s.mem (jsAnd (jsAdd s.pc (.int 2)) (.int 255))) { s with ir := jn op }).pc = jn p2 →
      tick s = { h (s.mem (jsAnd (jsAdd s.pc (.int 1)) (.int 255)))
          (s.mem (jsAnd (jsAdd s.pc (.int 2)) (.int 255))) { s with ir := jn op } with
        pc := jn ((p2 + ((op >>> 6 &&& 3) + 1)) % 256) }) ∧
    (op.testBit 4 = true →
      tick s = h (s.mem (jsAnd (jsAdd s.pc (.int 1)) (.int 255)))
        (s.mem (jsAnd (jsAdd s.pc (.int 2)) (.int 255))) { s with ir := jn op }) := by
  have hir : (h (s.mem (jsAnd (jsAdd s.pc (.int 1)) (.int 255)))
      (s.mem (jsAnd (jsAdd s.pc (.int 2)) (.int 255))) { s with ir := jn op }).ir = jn op := by
    rw [handlerIr (jn op) h hbt]
  have hiff : (jsAnd (jn op) (.int 16) = .int 0) ↔ (op.testBit 4 = false) :=
    bit4_iff ⟨op, hop256⟩
  constructor
  · intro hb4 p2 hp2 hpc
    unfold tick
    rw [hNoInt]
    dsimp only
    rw [hop, hbt]
    dsimp only
    rw [hir, if_pos (hiff.mpr hb4)]
    unfold alu
    dsimp only
    simp only [getRef]
    rw [hpc]
    rw [show (JSNum.int 6) = jn 6 from rfl, jsSar_jn (by omega) (by omega)]
    rw [show (JSNum.int 3) = jn 3 from rfl, jsAnd_jn (by omega) (by omega)]
    rw [jsAdd_jn_one, jsAdd_jn,
      jsAnd255_jn _ (by have h3 : op >>> 6 &&& 3 ≤ 3 := Nat.and_le_right; omega)]
    simp only [setRef]
    rw [hir]
  · intro hb4
    unfold tick
    rw [hNoInt]
    dsimp only
    rw [hop, hbt]
    dsimp only
    rw [hir, if_neg (fun hc => by rw [hiff.mp hc] at hb4; exact Bool.noConfusion hb4)]

set_option maxRecDepth 100000 in
/-- C4 witness: `LDI 2, 7` (opcode 0b10000010, bit 4 clear, two operands)
executed at PC 0 leaves the loop to advance PC to 3 and stores 7 in R2;
`JMP 0` (opcode 0b01010100, bit 4 set) with R0 = 0 ends the tick at the
handler's PC 0, with no auto-advance. -/
theorem C4_pc_advance_witness :
    (tick ldiProg).pc = jn 3 ∧ (tick ldiProg).r 2 = jn 7 ∧ (tick jmpProg).pc = jn 0 := by
  have h := C4_pc_advance ldiProg 130 CPU.LDI rfl rfl (by omega) rfl
  have h1 := h.1 (by decide) 0 (by omega) (by decide)
  have g := C4_pc_advance jmpProg 84 CPU.JMP rfl rfl (by omega) rfl
  have g2 := g.2 (by decide)
  rw [h1, g2]
  exact ⟨by decide, by decide, by decide⟩
